import Mathlib

/-! # pge-cep-weather-otel: postal code to weather pipeline

Shallow embedding of the two HTTP handlers of the repository
(`internal/handler`, `cmd/service-a`, `cmd/service-b`) and of the library
operations they call, followed by the properties proved about them.

Conventions of the embedding:

* Go `string` and `[]byte` values are Lean `String`s.
* A Go `error` is its message (`GoError`); `fmt.Errorf("p: %w", err)` is
  `"p: " ++ err`.
* `float64` is a type parameter `F` with an addition and numerals: nothing
  proved below depends on how the addition rounds.
* The network and the leaf functions of the libraries (number formatting and
  parsing, string quoting, the JSON lexer, the decoding of the providers'
  payloads) are parameters (`Env`): every outbound call a handler makes is
  recorded in the `calls` field of its `Outcome`.
* The JSON layout of the reading, with the field tags of the source, and the
  assignment of decoded members to fields are modelled in full, as is the
  status and body bookkeeping of the `net/http` response writer.
-/

set_option autoImplicit false
set_option maxRecDepth 8000

/-! ## The fragment of Go's `regexp` used by the validator -/

namespace regexp

/-- Syntax of the regular expressions that occur in the source. -/
inductive Regexp where
  /-- The anchor `^` without the `m` flag: beginning of the text. -/
  | beginText
  /-- The anchor `$` without the `m` flag: end of the text. -/
  | endText
  /-- The Perl class `\d`, which Go defines as `[0-9]`. -/
  | perlDigit
  /-- Concatenation. -/
  | cat (a b : Regexp)
  /-- Counted repetition `a{n}`. -/
  | rep (a : Regexp) (n : Nat)
  deriving Repr

/-- A position in the text: the number of characters before it and the
characters after it. -/
abbrev Pos := Nat × List Char

/-- All positions reached by running `f` exactly `n` times in sequence. -/
def iter (f : Pos → List Pos) : Nat → Pos → List Pos
  | 0, p => [p]
  | n + 1, p => (f p).flatMap (iter f n)

/-- All positions at which a match of the expression that starts at the given
position can end. -/
def matchFrom : Regexp → Pos → List Pos
  | .beginText, p => if p.1 = 0 then [p] else []
  | .endText, p => if p.2.isEmpty then [p] else []
  | .perlDigit, p =>
    match p.2 with
    | [] => []
    | c :: cs => if c.isDigit then [(p.1 + 1, cs)] else []
  | .cat a b, p => (matchFrom a p).flatMap (matchFrom b)
  | .rep a n, p => iter (matchFrom a) n p

/-- Unanchored search: is there a match starting at this position or at a
later one. -/
def searchFrom (re : Regexp) : Nat → List Char → Bool
  | n, [] => !(matchFrom re (n, [])).isEmpty
  | n, c :: cs => !(matchFrom re (n, c :: cs)).isEmpty || searchFrom re (n + 1) cs

/-- The method `(*Regexp).MatchString`: the text contains a match. -/
def MatchString (re : Regexp) (s : String) : Bool :=
  searchFrom re 0 s.toList

end regexp

/-! ## Library model: errors, contexts, HTTP values -/

/-- A Go `error`, identified with its message. -/
abbrev GoError := String

/-- A `context.Context`, as far as derivation and cancellation scope matter. -/
inductive Context where
  /-- The value of `context.Background()`: never cancelled. -/
  | background
  /-- The context of an inbound request, `r.Context()`. -/
  | inbound (id : Nat)
  /-- A context derived from `parent` (by a propagator or a tracer). -/
  | child (parent : Context) (label : String)
  deriving DecidableEq, Repr

/-- Whether `c` is `root` or was derived from it in any number of steps, which
is when cancelling `root` cancels `c`; written `c.derivedFrom root`. -/
def Context.derivedFrom : Context → Context → Bool
  | .background, root => decide (Context.background = root)
  | .inbound id, root => decide (Context.inbound id = root)
  | .child p l, root => decide (Context.child p l = root) || Context.derivedFrom p root

/-- An `http.Header`, as a list of key and value pairs. -/
abbrev Header := List (String × String)

/-- The method `Extract` of the global text map propagator: a context derived
from the one given, carrying what the headers hold. -/
def propagatorExtract (ctx : Context) (_carrier : Header) : Context :=
  .child ctx "propagation.Extract"

/-- The method `Tracer.Start`: the returned context, a child carrying the span. -/
def tracerStart (ctx : Context) (spanName : String) : Context :=
  .child ctx spanName

/-- An outbound `*http.Request`. -/
structure OutRequest where
  ctx : Context
  Method : String
  URL : String
  Header : Header
  deriving DecidableEq, Repr

/-- An `*http.Response` as the client returns it. `Body` is what
`io.ReadAll(resp.Body)` yields. -/
structure ClientResponse where
  StatusCode : Nat
  Body : Except GoError String

/-- What a handler has written to its `http.ResponseWriter`: the status code
and the body. When the handler ended in a panic before writing, `panic` holds
the panic value and nothing was written. -/
structure Response where
  statusCode : Nat
  body : String
  panic : Option String := none
  deriving DecidableEq, Repr

/-- The state of the `http.ResponseWriter` of a `net/http` server: whether the
header has been written, with which status, and the body bytes written. -/
structure ResponseWriter where
  wroteHeader : Bool
  status : Nat
  body : String
  deriving DecidableEq, Repr

/-- The function `bodyAllowedForStatus` of `net/http`: no body goes with the
statuses 1xx, 204 and 304. -/
def bodyAllowedForStatus (status : Nat) : Bool :=
  if 100 ≤ status ∧ status ≤ 199 then false
  else if status = 204 then false
  else if status = 304 then false
  else true

/-- The method `WriteHeader` of the server's response writer (Go 1.19 and
later): a second call is ignored, a code below 100 or above 999 panics, a 1xx
code other than 101 sends an interim response and leaves the header unwritten,
any other code becomes the status. -/
def ResponseWriter.WriteHeader (w : ResponseWriter) (code : Nat) :
    Except String ResponseWriter :=
  if w.wroteHeader then .ok w
  else if code < 100 ∨ code > 999 then .error ("invalid WriteHeader code " ++ toString code)
  else if 100 ≤ code ∧ code ≤ 199 ∧ code ≠ 101 then .ok w
  else .ok { w with wroteHeader := true, status := code }

/-- The method `Write` of the server's response writer: writes the header with
status 200 if none was written, then appends the data unless the status allows
no body (the error it then returns is ignored by every caller here). -/
def ResponseWriter.Write (w : ResponseWriter) (data : String) : ResponseWriter :=
  let w := if w.wroteHeader then w else { w with wroteHeader := true, status := 200 }
  if bodyAllowedForStatus w.status then { w with body := w.body ++ data } else w

/-- The sequence `w.WriteHeader(code)` then `w.Write(data)` on a fresh response
writer, and what has been written at the end of it. -/
def writeResponse (code : Nat) (data : String) : Response :=
  match ResponseWriter.WriteHeader { wroteHeader := false, status := 0, body := "" } code with
  | .error p => { statusCode := 0, body := "", panic := some p }
  | .ok w => { statusCode := (w.Write data).status, body := (w.Write data).body }

/-- The function `http.Error`: writes the status code with `WriteHeader`, then
the message with `fmt.Fprintln`, which appends a newline. -/
def httpError (msg : String) (code : Nat) : Response :=
  writeResponse code (msg ++ "\n")

/-- The type `ContentType` of `chi/render`. -/
inductive ContentType where
  | Unknown
  | PlainText
  | HTML
  | JSON
  | XML
  | Form
  | EventStream
  deriving DecidableEq, Repr

/-- A JSON text as the decoder of `encoding/json` sees it once it has checked
the syntax: numbers keep their literal. -/
inductive JsonValue where
  | null
  | bool (b : Bool)
  | number (literal : String)
  | string (s : String)
  | array (items : List JsonValue)
  | object (members : List (String × JsonValue))

/-- The result of running a handler: the response written, the outbound
requests handed to the HTTP client in order, and the lines logged. -/
structure Outcome where
  response : Response
  calls : List OutRequest
  logs : List String
  deriving DecidableEq, Repr

/-! ## Data types of the source -/

/-- Type `WeatherInfo` (`weather-handler.go`, and verbatim in both `cmd`
programs). -/
structure WeatherInfo (F : Type) where
  City : String
  Kelvin : F
  Celsius : F
  Fahrenheit : F
  deriving DecidableEq, Repr

/-- Type `TemperatureRespInfo` of `input-handler.go`. -/
structure TemperatureRespInfo (F : Type) where
  City : String
  Kelvin : F
  Celsius : F
  Fahrenheit : F
  deriving DecidableEq, Repr

/-- Type `cepInfo` of `weather-handler.go`. -/
structure cepInfo where
  Cep : String
  State : String
  City : String
  Neighborhood : String
  Street : String
  deriving DecidableEq, Repr

/-- The local type `respData` of `getLocationData`. -/
structure locationRespData where
  Cep : String
  Logradouro : String
  Complemento : String
  Unidade : String
  Bairro : String
  Localidade : String
  Uf : String
  Ibge : String
  Gia : String
  Ddd : String
  Siafi : String
  Err : String
  deriving DecidableEq, Repr

/-- The field `Current` of the local type `respData` of `getWeatherData`. -/
structure currentData (F : Type) where
  TempC : F
  TempF : F
  deriving DecidableEq, Repr

/-- The local type `respData` of `getWeatherData`. -/
structure weatherRespData (F : Type) where
  Current : currentData F
  deriving DecidableEq, Repr

/-- An inbound `*http.Request`, as far as the handlers read it. -/
structure Request where
  /-- The value of `r.Context()`. -/
  ctx : Context
  /-- The value of `r.Header`. -/
  Header : Header
  /-- The bytes of `r.Body`. -/
  Body : String
  /-- The value of `chi.URLParam(r, "cep")`. -/
  cepParam : String
  /-- The value of `render.GetAcceptedContentType(r)`: the content type named
  first in the `Accept` header, `PlainText` when there is none or it is not
  known. -/
  accepted : ContentType
  deriving DecidableEq, Repr

/-- The environment of a handler: the network and the library functions whose
results the source does not determine. -/
structure Env (F : Type) where
  /-- The error `http.NewRequestWithContext` returns for a method and a URL,
  if any. -/
  newRequestError : String → String → Option GoError
  /-- The method `http.DefaultClient.Do`. -/
  clientDo : OutRequest → Except GoError ClientResponse
  /-- The headers the propagator's `Inject` writes for a context. -/
  inject : Context → Header
  /-- The function `url.QueryEscape`. -/
  queryEscape : String → String
  /-- The function `render.DecodeJSON` into `struct{ Cep string }`: the value
  of the field afterwards, and the error. -/
  decodeCep : String → String × Option GoError
  /-- The function `json.Unmarshal` into the `respData` of `getLocationData`. -/
  unmarshalLocation : String → Except GoError locationRespData
  /-- The function `json.Unmarshal` into the `respData` of `getWeatherData`. -/
  unmarshalWeather : String → Except GoError (weatherRespData F)
  /-- The JSON encoding of a string by `encoding/json` with HTML escaping on:
  the quoted and escaped text. -/
  jsonString : String → String
  /-- The JSON encoding of a `float64` by `encoding/json`: the number text, or
  the error for a value JSON cannot hold. -/
  jsonFloat : F → Except GoError String
  /-- The syntax check and scan of a JSON text by `json.Unmarshal`. -/
  jsonParse : String → Except GoError JsonValue
  /-- The conversion of a JSON number literal to `float64` by `json.Unmarshal`,
  with `none` when the number is out of range. -/
  parseFloat : String → Option F
  /-- The case-insensitive comparison `encoding/json` falls back on when no
  field has exactly the name of an object key. -/
  equalFold : String → String → Bool
  /-- The message of a `json.UnmarshalTypeError` for a JSON value, a struct and
  one of its fields. -/
  unmarshalTypeError : String → String → String → GoError
  /-- The bytes `render.XML` writes for a `WeatherInfo`, or the error of
  `xml.Marshal`. -/
  xmlWeatherInfo : WeatherInfo F → Except GoError String
  /-- The bytes `render.XML` writes for a `TemperatureRespInfo`, or the error
  of `xml.Marshal`. -/
  xmlTemperature : TemperatureRespInfo F → Except GoError String

/-- The function `http.NewRequestWithContext` with a nil body. -/
def NewRequestWithContext {F : Type} (env : Env F) (ctx : Context) (method url : String) :
    Except GoError OutRequest :=
  match env.newRequestError method url with
  | some err => .error err
  | none => .ok { ctx := ctx, Method := method, URL := url, Header := [] }

/-! ## The JSON encoding and decoding of the reading, and `render.Render` -/

/-- The word a `json.UnmarshalTypeError` uses for a JSON value. -/
def JsonValue.kind : JsonValue → String
  | .null => "null"
  | .bool _ => "bool"
  | .number _ => "number"
  | .string _ => "string"
  | .array _ => "array"
  | .object _ => "object"

/-- The index of the struct field an object key selects: the field whose name
is exactly the key, else the first field whose name equals it up to case. -/
def jsonFieldIndex {F : Type} (env : Env F) (tags : List String) (key : String) :
    Option Nat :=
  match tags.findIdx? (fun tag => tag == key) with
  | some i => some i
  | none => tags.findIdx? (fun tag => env.equalFold tag key)

/-- The fields of a struct made of one string and three `float64`s while
`json.Unmarshal` fills it, with the first type error met. -/
structure jsonFields (F : Type) where
  s0 : String
  f1 : F
  f2 : F
  f3 : F
  err : Option GoError

/-- The method `saveError` of the decoder: only the first error is kept. -/
def jsonFields.saveError {F : Type} (acc : jsonFields F) (e : GoError) : jsonFields F :=
  match acc.err with
  | some _ => acc
  | none => { acc with err := some e }

/-- The decoding of one object member into a struct whose fields, in order,
are a string and three `float64`s with the given names: `null` changes
nothing, a value of the wrong kind or a number out of range is a type error,
a key that selects no field is skipped. -/
def jsonStoreMember {F : Type} (env : Env F) (structName : String) (tags : List String)
    (acc : jsonFields F) (member : String × JsonValue) : jsonFields F :=
  match jsonFieldIndex env tags member.1 with
  | none => acc
  | some i =>
    match member.2 with
    | .null => acc
    | .string s =>
      if i = 0 then { acc with s0 := s }
      else acc.saveError (env.unmarshalTypeError "string" structName (tags.getD i ""))
    | .number literal =>
      if i = 0 then acc.saveError (env.unmarshalTypeError "number" structName (tags.getD i ""))
      else
        match env.parseFloat literal with
        | none =>
          acc.saveError (env.unmarshalTypeError ("number " ++ literal) structName
            (tags.getD i ""))
        | some x =>
          if i = 1 then { acc with f1 := x }
          else if i = 2 then { acc with f2 := x }
          else { acc with f3 := x }
    | v => acc.saveError (env.unmarshalTypeError v.kind structName (tags.getD i ""))

/-- The function `json.Unmarshal` into a zero-valued struct whose fields are a
string and three `float64`s with the given names. -/
def jsonUnmarshalFields {F : Type} [NatCast F] (env : Env F) (structName : String)
    (tags : List String) (data : String) : Except GoError (jsonFields F) :=
  match env.jsonParse data with
  | .error e => .error e
  | .ok .null =>
    .ok { s0 := "", f1 := ((0 : Nat) : F), f2 := ((0 : Nat) : F), f3 := ((0 : Nat) : F),
          err := none }
  | .ok (.object members) =>
    let acc := members.foldl (jsonStoreMember env structName tags)
      { s0 := "", f1 := ((0 : Nat) : F), f2 := ((0 : Nat) : F), f3 := ((0 : Nat) : F),
        err := none }
    match acc.err with
    | some e => .error e
    | none => .ok acc
  | .ok v => .error (env.unmarshalTypeError v.kind structName "")

/-- The function `json.Unmarshal` into a `TemperatureRespInfo`, whose field
tags are `city`, `temp_K`, `temp_C` and `temp_F`. -/
def TemperatureRespInfo.unmarshal {F : Type} [NatCast F] (env : Env F) (data : String) :
    Except GoError (TemperatureRespInfo F) :=
  match jsonUnmarshalFields env "TemperatureRespInfo" ["city", "temp_K", "temp_C", "temp_F"]
      data with
  | .error e => .error e
  | .ok acc => .ok { City := acc.s0, Kelvin := acc.f1, Celsius := acc.f2, Fahrenheit := acc.f3 }

/-- The function `json.Unmarshal` into a `WeatherInfo`, whose field tags are
`city`, `temp_K`, `temp_C` and `temp_F`. -/
def WeatherInfo.unmarshal {F : Type} [NatCast F] (env : Env F) (data : String) :
    Except GoError (WeatherInfo F) :=
  match jsonUnmarshalFields env "WeatherInfo" ["city", "temp_K", "temp_C", "temp_F"] data with
  | .error e => .error e
  | .ok acc => .ok { City := acc.s0, Kelvin := acc.f1, Celsius := acc.f2, Fahrenheit := acc.f3 }

/-- The JSON text `encoding/json` writes for a `WeatherInfo`: the fields in
declaration order under their tags. -/
def WeatherInfo.marshal {F : Type} (env : Env F) (w : WeatherInfo F) : Except GoError String :=
  match env.jsonFloat w.Kelvin with
  | .error e => .error e
  | .ok k =>
    match env.jsonFloat w.Celsius with
    | .error e => .error e
    | .ok c =>
      match env.jsonFloat w.Fahrenheit with
      | .error e => .error e
      | .ok f =>
        .ok ("\x7b\"city\":" ++ env.jsonString w.City ++ ",\"temp_K\":" ++ k ++
          ",\"temp_C\":" ++ c ++ ",\"temp_F\":" ++ f ++ "\x7d")

/-- The JSON text `encoding/json` writes for a `TemperatureRespInfo`: the
fields in declaration order under their tags. -/
def TemperatureRespInfo.marshal {F : Type} (env : Env F) (w : TemperatureRespInfo F) :
    Except GoError String :=
  match env.jsonFloat w.Kelvin with
  | .error e => .error e
  | .ok k =>
    match env.jsonFloat w.Celsius with
    | .error e => .error e
    | .ok c =>
      match env.jsonFloat w.Fahrenheit with
      | .error e => .error e
      | .ok f =>
        .ok ("\x7b\"city\":" ++ env.jsonString w.City ++ ",\"temp_K\":" ++ k ++
          ",\"temp_C\":" ++ c ++ ",\"temp_F\":" ++ f ++ "\x7d")

/-- The function `render.Render` after `render.Status(r, status)`, for a value
whose `Render` method returns nil: the default responder answers in XML when
the accepted content type is XML and in JSON otherwise; the JSON encoder ends
the text with a newline; an encoding error is answered with `http.Error` and
status 500. The arguments are the JSON text and the XML bytes of the value. -/
def renderRender (status : Nat) (accepted : ContentType) (json xml : Except GoError String) :
    Response :=
  match accepted with
  | .XML =>
    match xml with
    | .error e => httpError e 500
    | .ok bytes => writeResponse status bytes
  | _ =>
    match json with
    | .error e => httpError e 500
    | .ok text => writeResponse status (text ++ "\n")

/-! ## Package `internal/handler` -/

namespace handler

open regexp

/-- The expression compiled by `isValidCep`: `^\d{8}$`. -/
def cepPattern : Regexp :=
  .cat .beginText (.cat (.rep .perlDigit 8) .endText)

/-- Function `isValidCep` of `input-handler.go`. -/
def isValidCep (cep : String) : Bool :=
  MatchString cepPattern cep

/-- Type `Handler`. The tracer is modelled by `tracerStart`. -/
structure Handler where
  WeatherServiceUrl : String
  WeatherApiKey : String
  deriving DecidableEq, Repr

variable {F : Type}

/-- Function `decodeCepFromBodyRequest`. -/
def decodeCepFromBodyRequest (env : Env F) (body : String) : String × Option GoError :=
  env.decodeCep body

/-- Function `requestWeatherData`: the body and status code, or the error,
and the requests handed to the client. -/
def requestWeatherData (env : Env F) (ctx : Context) (url : String) :
    Except GoError (String × Nat) × List OutRequest :=
  match NewRequestWithContext env ctx "GET" url with
  | .error err => (.error ("error to create request: " ++ err), [])
  | .ok req =>
    let req := { req with
      Header := req.Header ++ [("Content-Type", "application/json")] ++ env.inject ctx }
    match env.clientDo req with
    | .error err => (.error ("error to do request: " ++ err), [req])
    | .ok resp =>
      match resp.Body with
      | .error err => (.error ("error to read response body: " ++ err), [req])
      | .ok bodyBytes => (.ok (bodyBytes, resp.StatusCode), [req])

/-- Method `InputHandler`: the Gateway. -/
def InputHandler [NatCast F] (env : Env F) (h : Handler) (r : Request) : Outcome :=
  let ctx := propagatorExtract r.ctx r.Header
  let ctx := tracerStart ctx "input-handler"
  match decodeCepFromBodyRequest env r.Body with
  | (_, some err) =>
    { response := httpError "invalid body request" 400, calls := [], logs := [err] }
  | (cep, none) =>
    if !isValidCep cep then
      { response := httpError "invalid zipcode" 422, calls := [],
        logs := ["cep inválido: " ++ cep] }
    else
      let url := h.WeatherServiceUrl ++ "/weather/" ++ cep
      match requestWeatherData env ctx url with
      | (.error err, calls) =>
        { response := httpError "error to request weather data" 500, calls := calls,
          logs := [err] }
      | (.ok (responseData, statusCode), calls) =>
        if statusCode != 200 then
          { response := httpError responseData statusCode, calls := calls, logs := [] }
        else
          match TemperatureRespInfo.unmarshal env responseData with
          | .error err =>
            { response := httpError "error to unmarshal body" 500, calls := calls,
              logs := [err] }
          | .ok result =>
            { response := renderRender 200 r.accepted (TemperatureRespInfo.marshal env result)
                (env.xmlTemperature result),
              calls := calls, logs := [] }

/-- Function `request` of `weather-handler.go`; `unmarshal` is
`json.Unmarshal` into the type of `data`. -/
def request {α : Type} (env : Env F) (unmarshal : String → Except GoError α)
    (ctx : Context) (url : String) : Except GoError α × List OutRequest :=
  match NewRequestWithContext env ctx "GET" url with
  | .error err => (.error ("error to create request: " ++ err), [])
  | .ok req =>
    match env.clientDo req with
    | .error err => (.error ("error to do request: " ++ err), [req])
    | .ok resp =>
      match resp.Body with
      | .error err => (.error ("error to read body: " ++ err), [req])
      | .ok body =>
        match unmarshal body with
        | .error err => (.error ("error to unmarshal body: " ++ err), [req])
        | .ok data => (.ok data, [req])

/-- The URL `getLocationData` requests. -/
def locationUrl (cep : String) : String :=
  "http://viacep.com.br/ws/" ++ cep ++ "/json/"

/-- Function `getLocationData`. The Go result `(nil, err)` is `.error err`,
`(nil, nil)` is `.ok none` and `(resp, nil)` is `.ok (some resp)`. -/
def getLocationData (env : Env F) (cep : String) :
    Except GoError (Option cepInfo) × List OutRequest :=
  match request env env.unmarshalLocation Context.background (locationUrl cep) with
  | (.error err, calls) => (.error ("error requesting via cep: " ++ err), calls)
  | (.ok data, calls) =>
    if data.Err != "" then (.ok none, calls)
    else
      (.ok (some { Cep := data.Cep, State := data.Uf, City := data.Localidade,
                   Neighborhood := data.Bairro, Street := data.Logradouro }), calls)

/-- The URL `getWeatherData` requests. -/
def weatherUrl (env : Env F) (weatherApiKey location : String) : String :=
  "http://api.weatherapi.com/v1/current.json?key=" ++ weatherApiKey ++ "&q=" ++
    env.queryEscape location ++ "&aqi=no"

/-- Function `getWeatherData`. The Go result `(nil, err)` is `.error err` and
`(resp, nil)` is `.ok resp`. -/
def getWeatherData [Add F] [NatCast F] (env : Env F) (location weatherApiKey : String) :
    Except GoError (WeatherInfo F) × List OutRequest :=
  match request env env.unmarshalWeather Context.background
      (weatherUrl env weatherApiKey location) with
  | (.error err, calls) => (.error ("error requesting weather api: " ++ err), calls)
  | (.ok data, calls) =>
    (.ok { City := location, Celsius := data.Current.TempC,
           Fahrenheit := data.Current.TempF,
           Kelvin := data.Current.TempC + ((273 : Nat) : F) }, calls)

/-- Method `WeatherHandler`: the Aggregator. -/
def WeatherHandler [Add F] [NatCast F] (env : Env F) (h : Handler) (r : Request) : Outcome :=
  let ctx := r.ctx
  let ctx := propagatorExtract ctx r.Header
  let _spanCtx := tracerStart ctx "weather-handler"
  let cep := r.cepParam
  match getLocationData env cep with
  | (.error err, calls) =>
    { response := httpError "error to get location data in viacep api" 500, calls := calls,
      logs := ["getLocationData: " ++ err] }
  | (.ok none, calls) =>
    { response := httpError "can not find zipcode" 404, calls := calls,
      logs := ["cep not found"] }
  | (.ok (some cepInfo), calls) =>
    match getWeatherData env cepInfo.City h.WeatherApiKey with
    | (.error err, calls2) =>
      { response := httpError "error to get weather data in weather api" 500,
        calls := calls ++ calls2, logs := ["getWeatherData: " ++ err] }
    | (.ok weatherInfo, calls2) =>
      { response := renderRender 200 r.accepted (WeatherInfo.marshal env weatherInfo)
          (env.xmlWeatherInfo weatherInfo),
        calls := calls ++ calls2, logs := [] }

end handler

/-! ## Program `cmd/service-a` -/

namespace serviceA

open regexp

/-- Type `config` of `cmd/service-a`. -/
structure config where
  port : String
  serviceBUrl : String
  deriving DecidableEq, Repr

/-- Function `isValidCep` of `cmd/service-a/main.go`. -/
def isValidCep (cep : String) : Bool :=
  MatchString (.cat .beginText (.cat (.rep .perlDigit 8) .endText)) cep

variable {F : Type}

/-- Function `weatherHandler` of `cmd/service-a/main.go`; `conf` is the
package variable of that name. -/
def weatherHandler [NatCast F] (env : Env F) (conf : config) (r : Request) : Outcome :=
  match env.decodeCep r.Body with
  | (_, some err) =>
    { response := httpError "invalid body request" 400, calls := [], logs := [err] }
  | (cep, none) =>
    if !isValidCep cep then
      { response := httpError "invalid zipcode" 422, calls := [],
        logs := ["cep inválido: " ++ cep] }
    else
      let url := conf.serviceBUrl ++ "/weather/" ++ cep
      match NewRequestWithContext env r.ctx "GET" url with
      | .error err =>
        { response := httpError "error to create external request" 500, calls := [],
          logs := [err] }
      | .ok req =>
        match env.clientDo req with
        | .error err =>
          { response := httpError "error to call external request" 500, calls := [req],
            logs := [err] }
        | .ok resp =>
          match resp.Body with
          | .error err =>
            { response := httpError "error to read external request" 500, calls := [req],
              logs := [err] }
          | .ok bytes =>
            if resp.StatusCode != 200 then
              { response := httpError bytes resp.StatusCode, calls := [req], logs := [] }
            else
              match WeatherInfo.unmarshal env bytes with
              | .error err =>
                { response := httpError "error to unmarshal body" 500, calls := [req],
                  logs := [err] }
              | .ok result =>
                { response := renderRender 200 r.accepted (WeatherInfo.marshal env result)
                    (env.xmlWeatherInfo result),
                  calls := [req], logs := [] }

end serviceA

/-! ## Program `cmd/service-b` -/

namespace serviceB

/-- Type `config` of `cmd/service-b`. -/
structure config where
  port : String
  weatherApiKey : String
  deriving DecidableEq, Repr

variable {F : Type}

/-- Function `request` of `cmd/service-b/main.go`. -/
def request {α : Type} (env : Env F) (unmarshal : String → Except GoError α)
    (ctx : Context) (url : String) : Except GoError α × List OutRequest :=
  match NewRequestWithContext env ctx "GET" url with
  | .error err => (.error ("error to create request: " ++ err), [])
  | .ok req =>
    match env.clientDo req with
    | .error err => (.error ("error to do request: " ++ err), [req])
    | .ok resp =>
      match resp.Body with
      | .error err => (.error ("error to read body: " ++ err), [req])
      | .ok body =>
        match unmarshal body with
        | .error err => (.error ("error to unmarshal body: " ++ err), [req])
        | .ok data => (.ok data, [req])

/-- Function `getWeatherData` of `cmd/service-b/main.go`; `conf` is the package
variable of that name. -/
def getWeatherData [Add F] [NatCast F] (env : Env F) (conf : config) (location : String) :
    Except GoError (WeatherInfo F) × List OutRequest :=
  match request env env.unmarshalWeather Context.background
      ("http://api.weatherapi.com/v1/current.json?key=" ++ conf.weatherApiKey ++ "&q=" ++
        env.queryEscape location ++ "&aqi=no") with
  | (.error err, calls) => (.error ("error requesting weather api: " ++ err), calls)
  | (.ok data, calls) =>
    (.ok { City := location, Celsius := data.Current.TempC,
           Fahrenheit := data.Current.TempF,
           Kelvin := data.Current.TempC + ((273 : Nat) : F) }, calls)

end serviceB

/-! ## Requests the handlers build, and concrete environments -/

/-- The outbound request the Gateway (`InputHandler`) hands to the client. -/
def handler.gatewayRequest {F : Type} (env : Env F) (h : handler.Handler) (r : Request)
    (cep : String) : OutRequest :=
  { ctx := tracerStart (propagatorExtract r.ctx r.Header) "input-handler",
    Method := "GET",
    URL := h.WeatherServiceUrl ++ "/weather/" ++ cep,
    Header := [("Content-Type", "application/json")] ++
      env.inject (tracerStart (propagatorExtract r.ctx r.Header) "input-handler") }

/-- The outbound request `getLocationData` hands to the client. -/
def handler.locationRequest (cep : String) : OutRequest :=
  { ctx := Context.background, Method := "GET", URL := handler.locationUrl cep, Header := [] }

/-- The outbound request `getWeatherData` hands to the client. -/
def handler.weatherRequest {F : Type} (env : Env F) (weatherApiKey location : String) :
    OutRequest :=
  { ctx := Context.background, Method := "GET",
    URL := handler.weatherUrl env weatherApiKey location, Header := [] }

/-- The outbound request the `weatherHandler` of `cmd/service-a` hands to the
client. -/
def serviceA.gatewayRequest (conf : serviceA.config) (r : Request) (cep : String) :
    OutRequest :=
  { ctx := r.ctx, Method := "GET", URL := conf.serviceBUrl ++ "/weather/" ++ cep, Header := [] }

/-- A handler configuration used in the worked examples. -/
def demoHandler : handler.Handler :=
  { WeatherServiceUrl := "http://service-b:8081", WeatherApiKey := "k" }

/-- A `cmd/service-a` configuration used in the worked examples. -/
def demoConfA : serviceA.config :=
  { port := "8080", serviceBUrl := "http://service-b:8081" }

/-- A `cmd/service-b` configuration used in the worked examples. -/
def demoConfB : serviceB.config :=
  { port := "8081", weatherApiKey := "k" }

/-- The JSON text of the reading for São Paulo at 25 degrees Celsius. -/
def demoReadingJson : String :=
  "\x7b\"city\":\"São Paulo\",\"temp_K\":298,\"temp_C\":25,\"temp_F\":77\x7d\n"

/-- The providers as seen from the Aggregator in the worked examples: the geo
provider knows `01001000` and flags `99999999` as an error, the weather
provider reports 25 and 77 degrees for São Paulo, -5 and 23 for Urupema, and
the inconsistent pair 10 and 99 for Lages. Temperatures are integers here, the
strings quoted need no escape, and the JSON lexer knows the one text the
examples decode. -/
def providerEnv : Env Int :=
  { newRequestError := fun _ _ => none,
    clientDo := fun req =>
      if req.URL = "http://viacep.com.br/ws/01001000/json/" then
        .ok { StatusCode := 200, Body := .ok "viacep 01001000" }
      else if req.URL = "http://viacep.com.br/ws/99999999/json/" then
        .ok { StatusCode := 200, Body := .ok "viacep erro" }
      else if req.URL = "http://api.weatherapi.com/v1/current.json?key=k&q=S%C3%A3o+Paulo&aqi=no" then
        .ok { StatusCode := 200, Body := .ok "weatherapi 25 77" }
      else if req.URL = "http://api.weatherapi.com/v1/current.json?key=k&q=Urupema&aqi=no" then
        .ok { StatusCode := 200, Body := .ok "weatherapi -5 23" }
      else if req.URL = "http://api.weatherapi.com/v1/current.json?key=k&q=Lages&aqi=no" then
        .ok { StatusCode := 200, Body := .ok "weatherapi 10 99" }
      else .error "dial tcp: connection refused",
    inject := fun _ => [("Traceparent", "00-0af7651916cd43dd8448eb211c80319c-b7ad6b7169203331-01")],
    queryEscape := fun s => if s = "São Paulo" then "S%C3%A3o+Paulo" else s,
    decodeCep := fun body =>
      if body = "\x7b\"cep\":\"01001000\"\x7d" then ("01001000", none)
      else if body = "\x7b\"cep\":\"99999999\"\x7d" then ("99999999", none)
      else if body = "\x7b\"cep\":\"123\"\x7d" then ("123", none)
      else ("", some "unexpected end of JSON input"),
    unmarshalLocation := fun body =>
      if body = "viacep 01001000" then
        .ok { Cep := "01001-000", Logradouro := "Praça da Sé", Complemento := "lado ímpar",
              Unidade := "", Bairro := "Sé", Localidade := "São Paulo", Uf := "SP",
              Ibge := "3550308", Gia := "1004", Ddd := "11", Siafi := "7107", Err := "" }
      else if body = "viacep erro" then
        .ok { Cep := "", Logradouro := "", Complemento := "", Unidade := "", Bairro := "",
              Localidade := "", Uf := "", Ibge := "", Gia := "", Ddd := "", Siafi := "",
              Err := "true" }
      else .error "invalid character",
    unmarshalWeather := fun body =>
      if body = "weatherapi 25 77" then .ok { Current := { TempC := 25, TempF := 77 } }
      else if body = "weatherapi -5 23" then .ok { Current := { TempC := -5, TempF := 23 } }
      else if body = "weatherapi 10 99" then .ok { Current := { TempC := 10, TempF := 99 } }
      else .error "invalid character",
    jsonString := fun s => "\"" ++ s ++ "\"",
    jsonFloat := fun x => .ok (toString x),
    jsonParse := fun text =>
      if text = demoReadingJson then
        .ok (.object [("city", .string "São Paulo"), ("temp_K", .number "298"),
          ("temp_C", .number "25"), ("temp_F", .number "77")])
      else .error "invalid character",
    parseFloat := fun literal =>
      if literal = "298" then some 298
      else if literal = "25" then some 25
      else if literal = "77" then some 77
      else none,
    equalFold := fun a b => a.toLower == b.toLower,
    unmarshalTypeError := fun value structName field =>
      "json: cannot unmarshal " ++ value ++ " into Go struct field " ++ structName ++ "." ++
        field,
    xmlWeatherInfo := fun w =>
      .ok ("<?xml version=\"1.0\" encoding=\"UTF-8\"?>\n<WeatherInfo><City>" ++ w.City ++
        "</City><Kelvin>" ++ toString w.Kelvin ++ "</Kelvin><Celsius>" ++ toString w.Celsius ++
        "</Celsius><Fahrenheit>" ++ toString w.Fahrenheit ++ "</Fahrenheit></WeatherInfo>"),
    xmlTemperature := fun w =>
      .ok ("<?xml version=\"1.0\" encoding=\"UTF-8\"?>\n<TemperatureRespInfo><City>" ++
        w.City ++ "</City><Kelvin>" ++ toString w.Kelvin ++ "</Kelvin><Celsius>" ++
        toString w.Celsius ++ "</Celsius><Fahrenheit>" ++ toString w.Fahrenheit ++
        "</Fahrenheit></TemperatureRespInfo>") }

/-- An inbound request to the Aggregator for a postal code. -/
def aggregatorRequest (id : Nat) (cep : String) : Request :=
  { ctx := Context.inbound id, Header := [], Body := "", cepParam := cep,
    accepted := ContentType.PlainText }

/-- The network as seen from the Gateway in the worked examples: a request to
the Aggregator address is answered by running `WeatherHandler` against
`providerEnv`. -/
def gatewayEnv : Env Int :=
  { providerEnv with
    clientDo := fun req =>
      if req.URL = "http://service-b:8081/weather/01001000" then
        let out := handler.WeatherHandler providerEnv demoHandler (aggregatorRequest 2 "01001000")
        .ok { StatusCode := out.response.statusCode, Body := .ok out.response.body }
      else if req.URL = "http://service-b:8081/weather/99999999" then
        let out := handler.WeatherHandler providerEnv demoHandler (aggregatorRequest 2 "99999999")
        .ok { StatusCode := out.response.statusCode, Body := .ok out.response.body }
      else .error "dial tcp: connection refused" }

/-- A network on which every request fails with the given error. -/
def downEnv (err : GoError) : Env Int :=
  { providerEnv with clientDo := fun _ => .error err }

/-- An inbound request to the Gateway with the given body and no `Accept`
header. -/
def gatewayInbound (body : String) : Request :=
  { ctx := Context.inbound 1, Header := [("Content-Type", "application/json")], Body := body,
    cepParam := "", accepted := ContentType.PlainText }

/-- An inbound request to the Gateway with the given body that asks for XML. -/
def gatewayInboundXML (body : String) : Request :=
  { ctx := Context.inbound 1,
    Header := [("Content-Type", "application/json"), ("Accept", "application/xml")],
    Body := body, cepParam := "", accepted := ContentType.XML }

/-! ## Validation lemmas -/

namespace regexp

theorem matchFrom_perlDigit_nil (n : Nat) :
    matchFrom .perlDigit (n, []) = [] := by
  simp [matchFrom]

theorem matchFrom_perlDigit_cons (n : Nat) (c : Char) (cs : List Char) :
    matchFrom .perlDigit (n, c :: cs) = if c.isDigit = true then [(n + 1, cs)] else [] := by
  simp [matchFrom]

theorem iter_succ (f : Pos → List Pos) (k : Nat) (p : Pos) :
    iter f (k + 1) p = (f p).flatMap (iter f k) := rfl

theorem iter_perlDigit (k n : Nat) (l : List Char) :
    iter (matchFrom .perlDigit) k (n, l) =
      if k ≤ l.length ∧ ∀ c ∈ l.take k, c.isDigit = true then [(n + k, l.drop k)] else [] := by
  induction k generalizing n l with
  | zero => simp [iter]
  | succ k ih =>
    cases l with
    | nil => rw [iter_succ, matchFrom_perlDigit_nil]; simp
    | cons c cs =>
      rw [iter_succ, matchFrom_perlDigit_cons]
      by_cases hc : c.isDigit = true
      · simp [hc, ih, Nat.add_assoc, Nat.add_comm 1 k]
      · simp [hc]

end regexp

namespace handler

open regexp

theorem matchFrom_cepPattern (n : Nat) (l : List Char) :
    matchFrom cepPattern (n, l) =
      if n = 0 ∧ l.length = 8 ∧ ∀ c ∈ l, c.isDigit = true then [(8, [])] else [] := by
  have h1 : matchFrom cepPattern (n, l) =
      (if n = 0 then [(n, l)] else []).flatMap
        (fun p => (iter (matchFrom .perlDigit) 8 p).flatMap
          (fun q => if q.2.isEmpty then [q] else [])) := rfl
  rw [h1]
  by_cases hn : n = 0
  · subst hn
    simp only [if_true, List.flatMap_cons, List.flatMap_nil, List.append_nil, iter_perlDigit]
    by_cases hd : 8 ≤ l.length ∧ ∀ c ∈ l.take 8, c.isDigit = true
    · rw [if_pos hd]
      by_cases hl : l.length = 8
      · have ht : l.take 8 = l := by rw [← hl]; exact List.take_length l
        have hdr : l.drop 8 = [] := by rw [← hl]; exact List.drop_length l
        rw [ht] at hd
        have h2 := hd.2
        simp only [hl, hdr, true_and, List.flatMap_cons, List.flatMap_nil, List.isEmpty_nil, if_true,
          List.append_nil]
        rw [if_pos h2]
      · have hdr : l.drop 8 ≠ [] := by
          intro h
          have := List.drop_eq_nil_iff.mp h
          omega
        simp [hl, hdr]
    · rw [if_neg hd]
      have : ¬ (l.length = 8 ∧ ∀ c ∈ l, c.isDigit = true) := by
        rintro ⟨hl, hall⟩
        apply hd
        refine ⟨by omega, ?_⟩
        intro c hc
        exact hall c (List.mem_of_mem_take hc)
      simp [this]
  · simp [hn]

theorem searchFrom_cepPattern_succ (n : Nat) (l : List Char) :
    searchFrom cepPattern (n + 1) l = false := by
  induction l generalizing n with
  | nil => simp [searchFrom, matchFrom_cepPattern]
  | cons c cs ih => simp [searchFrom, matchFrom_cepPattern, ih]

theorem isValidCep_iff (cep : String) :
    isValidCep cep = true ↔ cep.length = 8 ∧ ∀ c ∈ cep.toList, c.isDigit = true := by
  unfold isValidCep MatchString
  have hlen : cep.length = cep.toList.length := rfl
  rw [hlen]
  generalize cep.toList = l
  cases l with
  | nil => simp [searchFrom, matchFrom_cepPattern]
  | cons c cs =>
    simp only [searchFrom, matchFrom_cepPattern, searchFrom_cepPattern_succ, Bool.or_false]
    by_cases h : (c :: cs).length = 8 ∧ ∀ x ∈ c :: cs, x.isDigit = true
    · simp [h]
    · simp [h]

end handler

theorem httpError_with_body (msg : String) (code : Nat) (hlo : 200 ≤ code)
    (hhi : code ≤ 999) (h204 : code ≠ 204) (h304 : code ≠ 304) :
    httpError msg code = { statusCode := code, body := msg ++ "\n" } := by
  have h1 : ¬ (code < 100 ∨ code > 999) := by omega
  have h2 : ¬ (100 ≤ code ∧ code ≤ 199 ∧ code ≠ 101) := by omega
  have h3 : ¬ (100 ≤ code ∧ code ≤ 199) := by omega
  simp [httpError, writeResponse, ResponseWriter.WriteHeader, ResponseWriter.Write,
    bodyAllowedForStatus, h1, h2, h3, h204, h304]

theorem httpError_without_body (msg : String) (code : Nat)
    (hcode : code = 101 ∨ code = 204 ∨ code = 304) :
    httpError msg code = { statusCode := code, body := "" } := by
  rcases hcode with h | h | h <;> subst h <;> rfl

theorem httpError_panics (msg : String) (code : Nat) (hcode : code < 100 ∨ code > 999) :
    httpError msg code =
      { statusCode := 0, body := "", panic := some ("invalid WriteHeader code " ++ toString code) } := by
  simp [httpError, writeResponse, ResponseWriter.WriteHeader, hcode]

theorem char_isDigit_iff (c : Char) : c.isDigit = true ↔ '0' ≤ c ∧ c ≤ '9' := by
  simp [Char.isDigit, Char.le_def]

theorem handler.requestWeatherData_ok {F : Type} (env : Env F) (h : handler.Handler)
    (r : Request) (cep : String) (resp : ClientResponse) (body : String)
    (hnew : env.newRequestError "GET" (h.WeatherServiceUrl ++ "/weather/" ++ cep) = none)
    (hdo : env.clientDo (handler.gatewayRequest env h r cep) = .ok resp)
    (hbody : resp.Body = .ok body) :
    handler.requestWeatherData env (tracerStart (propagatorExtract r.ctx r.Header) "input-handler")
        (h.WeatherServiceUrl ++ "/weather/" ++ cep) =
      (.ok (body, resp.StatusCode), [handler.gatewayRequest env h r cep]) := by
  simp [handler.requestWeatherData, NewRequestWithContext, hnew, handler.gatewayRequest] at *
  simp [hdo, hbody]

theorem serviceA.isValidCep_eq (cep : String) :
    serviceA.isValidCep cep = handler.isValidCep cep := rfl

theorem handler.isValidCep_eq_false_iff (cep : String) :
    handler.isValidCep cep = false ↔
      ¬ (cep.length = 8 ∧ ∀ c ∈ cep.toList, c.isDigit = true) := by
  rw [← handler.isValidCep_iff]
  simp

theorem handler.InputHandler_invalid {F : Type} [NatCast F] (env : Env F) (h : handler.Handler)
    (r : Request) (cep : String) (hdec : env.decodeCep r.Body = (cep, none))
    (hbad : handler.isValidCep cep = false) :
    handler.InputHandler env h r =
      { response := httpError "invalid zipcode" 422, calls := [],
        logs := ["cep inválido: " ++ cep] } := by
  simp [handler.InputHandler, handler.decodeCepFromBodyRequest, hdec, hbad]

theorem serviceA.weatherHandler_invalid {F : Type} [NatCast F] (env : Env F) (conf : serviceA.config)
    (r : Request) (cep : String) (hdec : env.decodeCep r.Body = (cep, none))
    (hbad : handler.isValidCep cep = false) :
    serviceA.weatherHandler env conf r =
      { response := httpError "invalid zipcode" 422, calls := [],
        logs := ["cep inválido: " ++ cep] } := by
  simp [serviceA.weatherHandler, hdec, serviceA.isValidCep_eq, hbad]

theorem handler.InputHandler_proxy {F : Type} [NatCast F] (env : Env F) (h : handler.Handler)
    (r : Request) (cep : String) (resp : ClientResponse) (body : String)
    (hdec : env.decodeCep r.Body = (cep, none))
    (hvalid : handler.isValidCep cep = true)
    (hnew : env.newRequestError "GET" (h.WeatherServiceUrl ++ "/weather/" ++ cep) = none)
    (hdo : env.clientDo (handler.gatewayRequest env h r cep) = .ok resp)
    (hbody : resp.Body = .ok body) (hstatus : resp.StatusCode ≠ 200) :
    handler.InputHandler env h r =
      { response := httpError body resp.StatusCode,
        calls := [handler.gatewayRequest env h r cep], logs := [] } := by
  simp [handler.InputHandler, handler.decodeCepFromBodyRequest, hdec, hvalid,
    handler.requestWeatherData_ok env h r cep resp body hnew hdo hbody, hstatus]

theorem serviceA.weatherHandler_proxy {F : Type} [NatCast F] (env : Env F) (conf : serviceA.config)
    (r : Request) (cep : String) (resp : ClientResponse) (body : String)
    (hdec : env.decodeCep r.Body = (cep, none))
    (hvalid : handler.isValidCep cep = true)
    (hnew : env.newRequestError "GET" (conf.serviceBUrl ++ "/weather/" ++ cep) = none)
    (hdo : env.clientDo (serviceA.gatewayRequest conf r cep) = .ok resp)
    (hbody : resp.Body = .ok body) (hstatus : resp.StatusCode ≠ 200) :
    serviceA.weatherHandler env conf r =
      { response := httpError body resp.StatusCode,
        calls := [serviceA.gatewayRequest conf r cep], logs := [] } := by
  simp [serviceA.gatewayRequest] at hdo
  simp [serviceA.weatherHandler, hdec, serviceA.isValidCep_eq, hvalid, NewRequestWithContext,
    hnew, hdo, hbody, hstatus, serviceA.gatewayRequest]

theorem handler.requestWeatherData_error {F : Type} (env : Env F) (h : handler.Handler)
    (r : Request) (cep : String)
    (hfail :
      (∃ e, env.newRequestError "GET" (h.WeatherServiceUrl ++ "/weather/" ++ cep) = some e) ∨
      (env.newRequestError "GET" (h.WeatherServiceUrl ++ "/weather/" ++ cep) = none ∧
        ∃ e, env.clientDo (handler.gatewayRequest env h r cep) = .error e) ∨
      (env.newRequestError "GET" (h.WeatherServiceUrl ++ "/weather/" ++ cep) = none ∧
        ∃ resp e, env.clientDo (handler.gatewayRequest env h r cep) = .ok resp ∧
          resp.Body = .error e)) :
    ∃ err calls,
      handler.requestWeatherData env
          (tracerStart (propagatorExtract r.ctx r.Header) "input-handler")
          (h.WeatherServiceUrl ++ "/weather/" ++ cep) = (.error err, calls) := by
  rcases hfail with ⟨e, hnew⟩ | ⟨hnew, e, hdo⟩ | ⟨hnew, resp, e, hdo, hbody⟩
  · refine ⟨"error to create request: " ++ e, [], ?_⟩
    simp [handler.requestWeatherData, NewRequestWithContext, hnew]
  · refine ⟨"error to do request: " ++ e, [handler.gatewayRequest env h r cep], ?_⟩
    simp [handler.gatewayRequest] at hdo
    simp [handler.requestWeatherData, NewRequestWithContext, hnew, hdo, handler.gatewayRequest]
  · refine ⟨"error to read response body: " ++ e, [handler.gatewayRequest env h r cep], ?_⟩
    simp [handler.gatewayRequest] at hdo
    simp [handler.requestWeatherData, NewRequestWithContext, hnew, hdo, hbody,
      handler.gatewayRequest]

theorem handler.InputHandler_upstream_error {F : Type} [NatCast F] (env : Env F) (h : handler.Handler)
    (r : Request) (cep : String) (err : GoError) (calls : List OutRequest)
    (hdec : env.decodeCep r.Body = (cep, none))
    (hvalid : handler.isValidCep cep = true)
    (hreq : handler.requestWeatherData env
          (tracerStart (propagatorExtract r.ctx r.Header) "input-handler")
          (h.WeatherServiceUrl ++ "/weather/" ++ cep) = (.error err, calls)) :
    handler.InputHandler env h r =
      { response := httpError "error to request weather data" 500, calls := calls,
        logs := [err] } := by
  simp [handler.InputHandler, handler.decodeCepFromBodyRequest, hdec, hvalid, hreq]

theorem handler.request_ok {F α : Type} (env : Env F) (unmarshal : String → Except GoError α)
    (ctx : Context) (url : String) (resp : ClientResponse) (body : String) (data : α)
    (hnew : env.newRequestError "GET" url = none)
    (hdo : env.clientDo { ctx := ctx, Method := "GET", URL := url, Header := [] } = .ok resp)
    (hbody : resp.Body = .ok body) (hun : unmarshal body = .ok data) :
    handler.request env unmarshal ctx url =
      (.ok data, [{ ctx := ctx, Method := "GET", URL := url, Header := [] }]) := by
  simp [handler.request, NewRequestWithContext, hnew, hdo, hbody, hun]

theorem handler.request_error {F α : Type} (env : Env F)
    (unmarshal : String → Except GoError α) (ctx : Context) (url : String)
    (hfail :
      (∃ e, env.newRequestError "GET" url = some e) ∨
      (env.newRequestError "GET" url = none ∧
        ∃ e, env.clientDo { ctx := ctx, Method := "GET", URL := url, Header := [] } =
          .error e) ∨
      (env.newRequestError "GET" url = none ∧
        ∃ resp e, env.clientDo { ctx := ctx, Method := "GET", URL := url, Header := [] } =
          .ok resp ∧ resp.Body = .error e) ∨
      (env.newRequestError "GET" url = none ∧
        ∃ resp body e, env.clientDo { ctx := ctx, Method := "GET", URL := url, Header := [] } =
          .ok resp ∧ resp.Body = .ok body ∧ unmarshal body = .error e)) :
    ∃ err calls, handler.request env unmarshal ctx url = (.error err, calls) ∧
      (calls = [] ∨ calls = [{ ctx := ctx, Method := "GET", URL := url, Header := [] }]) := by
  rcases hfail with ⟨e, hnew⟩ | ⟨hnew, e, hdo⟩ | ⟨hnew, resp, e, hdo, hbody⟩ |
    ⟨hnew, resp, body, e, hdo, hbody, hun⟩
  · refine ⟨"error to create request: " ++ e, [], ?_, Or.inl rfl⟩
    simp [handler.request, NewRequestWithContext, hnew]
  · refine ⟨"error to do request: " ++ e, _, ?_, Or.inr rfl⟩
    simp [handler.request, NewRequestWithContext, hnew, hdo]
  · refine ⟨"error to read body: " ++ e, _, ?_, Or.inr rfl⟩
    simp [handler.request, NewRequestWithContext, hnew, hdo, hbody]
  · refine ⟨"error to unmarshal body: " ++ e, _, ?_, Or.inr rfl⟩
    simp [handler.request, NewRequestWithContext, hnew, hdo, hbody, hun]

theorem serviceB.request_eq {F α : Type} (env : Env F) (unmarshal : String → Except GoError α)
    (ctx : Context) (url : String) :
    serviceB.request env unmarshal ctx url = handler.request env unmarshal ctx url := rfl

theorem handler.locationUrl_take (cep : String) :
    (handler.locationUrl cep).toList.take 8 = ['h', 't', 't', 'p', ':', '/', '/', 'v'] := by
  cases cep
  rfl

theorem handler.weatherUrl_take {F : Type} (env : Env F) (key location : String) :
    (handler.weatherUrl env key location).toList.take 8 =
      ['h', 't', 't', 'p', ':', '/', '/', 'a'] := by
  unfold handler.weatherUrl
  generalize env.queryEscape location = q
  cases key
  cases q
  rfl

theorem handler.locationUrl_ne_weatherUrl {F : Type} (env : Env F)
    (cep key location : String) :
    handler.locationUrl cep ≠ handler.weatherUrl env key location := by
  intro h
  have h1 := handler.locationUrl_take cep
  rw [h, handler.weatherUrl_take] at h1
  simp at h1

theorem handler.getLocationData_flagged {F : Type} (env : Env F) (cep : String)
    (resp : ClientResponse) (body : String) (data : locationRespData)
    (hnew : env.newRequestError "GET" (handler.locationUrl cep) = none)
    (hdo : env.clientDo (handler.locationRequest cep) = .ok resp)
    (hbody : resp.Body = .ok body)
    (hun : env.unmarshalLocation body = .ok data)
    (herr : data.Err ≠ "") :
    handler.getLocationData env cep = (.ok none, [handler.locationRequest cep]) := by
  unfold handler.getLocationData
  rw [handler.request_ok env env.unmarshalLocation Context.background (handler.locationUrl cep)
    resp body data hnew hdo hbody hun]
  simp [herr, handler.locationRequest]

theorem handler.getLocationData_found {F : Type} (env : Env F) (cep : String)
    (resp : ClientResponse) (body : String) (data : locationRespData)
    (hnew : env.newRequestError "GET" (handler.locationUrl cep) = none)
    (hdo : env.clientDo (handler.locationRequest cep) = .ok resp)
    (hbody : resp.Body = .ok body)
    (hun : env.unmarshalLocation body = .ok data)
    (herr : data.Err = "") :
    handler.getLocationData env cep =
      (.ok (some { Cep := data.Cep, State := data.Uf, City := data.Localidade,
                   Neighborhood := data.Bairro, Street := data.Logradouro }),
        [handler.locationRequest cep]) := by
  unfold handler.getLocationData
  rw [handler.request_ok env env.unmarshalLocation Context.background (handler.locationUrl cep)
    resp body data hnew hdo hbody hun]
  simp [herr, handler.locationRequest]

theorem handler.getLocationData_error {F : Type} (env : Env F) (cep : String)
    (hfail :
      (∃ e, env.newRequestError "GET" (handler.locationUrl cep) = some e) ∨
      (env.newRequestError "GET" (handler.locationUrl cep) = none ∧
        ∃ e, env.clientDo (handler.locationRequest cep) = .error e) ∨
      (env.newRequestError "GET" (handler.locationUrl cep) = none ∧
        ∃ resp e, env.clientDo (handler.locationRequest cep) = .ok resp ∧
          resp.Body = .error e) ∨
      (env.newRequestError "GET" (handler.locationUrl cep) = none ∧
        ∃ resp body e, env.clientDo (handler.locationRequest cep) = .ok resp ∧
          resp.Body = .ok body ∧ env.unmarshalLocation body = .error e)) :
    ∃ err calls, handler.getLocationData env cep = (.error err, calls) ∧
      (calls = [] ∨ calls = [handler.locationRequest cep]) := by
  obtain ⟨err, calls, hreq, hcalls⟩ :=
    handler.request_error env env.unmarshalLocation Context.background
      (handler.locationUrl cep) hfail
  refine ⟨"error requesting via cep: " ++ err, calls, ?_, hcalls⟩
  unfold handler.getLocationData
  rw [hreq]

theorem handler.getWeatherData_ok {F : Type} [Add F] [NatCast F] (env : Env F)
    (location key : String) (resp : ClientResponse) (body : String) (data : weatherRespData F)
    (hnew : env.newRequestError "GET" (handler.weatherUrl env key location) = none)
    (hdo : env.clientDo (handler.weatherRequest env key location) = .ok resp)
    (hbody : resp.Body = .ok body)
    (hun : env.unmarshalWeather body = .ok data) :
    handler.getWeatherData env location key =
      (.ok { City := location, Kelvin := data.Current.TempC + ((273 : Nat) : F),
             Celsius := data.Current.TempC, Fahrenheit := data.Current.TempF },
        [handler.weatherRequest env key location]) := by
  unfold handler.getWeatherData
  rw [handler.request_ok env env.unmarshalWeather Context.background
    (handler.weatherUrl env key location) resp body data hnew hdo hbody hun]
  rfl

theorem serviceB.getWeatherData_eq {F : Type} [Add F] [NatCast F] (env : Env F)
    (conf : serviceB.config) (location : String) :
    serviceB.getWeatherData env conf location =
      handler.getWeatherData env location conf.weatherApiKey := rfl

theorem handler.request_calls_ctx {F α : Type} (env : Env F)
    (unmarshal : String → Except GoError α) (ctx : Context) (url : String) :
    (handler.request env unmarshal ctx url).2 = [] ∨
    (handler.request env unmarshal ctx url).2 =
      [{ ctx := ctx, Method := "GET", URL := url, Header := [] }] := by
  unfold handler.request NewRequestWithContext
  cases env.newRequestError "GET" url with
  | some e => left; rfl
  | none =>
    right
    simp only
    cases env.clientDo { ctx := ctx, Method := "GET", URL := url, Header := [] } with
    | error e => rfl
    | ok resp =>
      simp only
      cases resp.Body with
      | error e => rfl
      | ok body =>
        simp only
        cases unmarshal body with
        | error e => rfl
        | ok data => rfl

theorem handler.request_calls_all_ctx {F α : Type} (env : Env F)
    (unmarshal : String → Except GoError α) (ctx : Context) (url : String) :
    ∀ call ∈ (handler.request env unmarshal ctx url).2, call.ctx = ctx := by
  intro call hcall
  rcases handler.request_calls_ctx env unmarshal ctx url with h | h
  · rw [h] at hcall
    simp at hcall
  · rw [h] at hcall
    simp only [List.mem_singleton] at hcall
    rw [hcall]

theorem handler.getLocationData_calls {F : Type} (env : Env F) (cep : String) :
    (handler.getLocationData env cep).2 =
      (handler.request env env.unmarshalLocation Context.background
        (handler.locationUrl cep)).2 := by
  unfold handler.getLocationData
  generalize handler.request env env.unmarshalLocation Context.background
    (handler.locationUrl cep) = res
  rcases res with ⟨e | data, calls⟩
  · rfl
  · simp only
    split <;> rfl

theorem handler.getWeatherData_calls {F : Type} [Add F] [NatCast F] (env : Env F)
    (location key : String) :
    (handler.getWeatherData env location key).2 =
      (handler.request env env.unmarshalWeather Context.background
        (handler.weatherUrl env key location)).2 := by
  unfold handler.getWeatherData
  generalize handler.request env env.unmarshalWeather Context.background
    (handler.weatherUrl env key location) = res
  rcases res with ⟨e | data, calls⟩ <;> rfl

theorem handler.WeatherHandler_calls_background {F : Type} [Add F] [NatCast F] (env : Env F)
    (h : handler.Handler) (r : Request) :
    ∀ call ∈ (handler.WeatherHandler env h r).calls, call.ctx = Context.background := by
  have hloc := handler.request_calls_all_ctx env env.unmarshalLocation Context.background
    (handler.locationUrl r.cepParam)
  rw [← handler.getLocationData_calls] at hloc
  unfold handler.WeatherHandler
  simp only
  generalize handler.getLocationData env r.cepParam = res at hloc
  rcases res with ⟨e | (_ | info), calls⟩
  · exact hloc
  · exact hloc
  · have hw := handler.request_calls_all_ctx env env.unmarshalWeather Context.background
      (handler.weatherUrl env h.WeatherApiKey info.City)
    rw [← handler.getWeatherData_calls] at hw
    simp only
    generalize handler.getWeatherData env info.City h.WeatherApiKey = res2 at hw
    rcases res2 with ⟨e | w, calls2⟩
    · intro call hcall
      simp only [List.mem_append] at hcall
      exact hcall.elim (hloc call) (hw call)
    · intro call hcall
      simp only [List.mem_append] at hcall
      exact hcall.elim (hloc call) (hw call)

theorem writeResponse_200 (data : String) :
    writeResponse 200 data = { statusCode := 200, body := data } := by
  simp [writeResponse, ResponseWriter.WriteHeader, ResponseWriter.Write, bodyAllowedForStatus]

theorem renderRender_json (accepted : ContentType) (json xml : Except GoError String)
    (text : String) (hacc : accepted ≠ ContentType.XML) (hjson : json = .ok text) :
    renderRender 200 accepted json xml = { statusCode := 200, body := text ++ "\n" } := by
  subst hjson
  cases accepted <;> first | exact absurd rfl hacc | exact writeResponse_200 _

theorem renderRender_xml (json xml : Except GoError String) (bytes : String)
    (hxml : xml = .ok bytes) :
    renderRender 200 ContentType.XML json xml = { statusCode := 200, body := bytes } := by
  subst hxml
  exact writeResponse_200 _

theorem jsonFieldIndex_city {F : Type} (env : Env F) :
    jsonFieldIndex env ["city", "temp_K", "temp_C", "temp_F"] "city" = some 0 := rfl

theorem jsonFieldIndex_temp_K {F : Type} (env : Env F) :
    jsonFieldIndex env ["city", "temp_K", "temp_C", "temp_F"] "temp_K" = some 1 := rfl

theorem jsonFieldIndex_temp_C {F : Type} (env : Env F) :
    jsonFieldIndex env ["city", "temp_K", "temp_C", "temp_F"] "temp_C" = some 2 := rfl

theorem jsonFieldIndex_temp_F {F : Type} (env : Env F) :
    jsonFieldIndex env ["city", "temp_K", "temp_C", "temp_F"] "temp_F" = some 3 := rfl

theorem jsonUnmarshalFields_reading {F : Type} [NatCast F] (env : Env F)
    (structName data c sk sc sf : String) (k t f : F)
    (hparse : env.jsonParse data =
      .ok (.object [("city", .string c), ("temp_K", .number sk), ("temp_C", .number sc),
        ("temp_F", .number sf)]))
    (hk : env.parseFloat sk = some k) (ht : env.parseFloat sc = some t)
    (hf : env.parseFloat sf = some f) :
    jsonUnmarshalFields env structName ["city", "temp_K", "temp_C", "temp_F"] data =
      .ok { s0 := c, f1 := k, f2 := t, f3 := f, err := none } := by
  simp [jsonUnmarshalFields, hparse, jsonStoreMember, jsonFieldIndex_city,
    jsonFieldIndex_temp_K, jsonFieldIndex_temp_C, jsonFieldIndex_temp_F, hk, ht, hf]

theorem TemperatureRespInfo.unmarshal_reading {F : Type} [NatCast F] (env : Env F)
    (data c sk sc sf : String) (k t f : F)
    (hparse : env.jsonParse data =
      .ok (.object [("city", .string c), ("temp_K", .number sk), ("temp_C", .number sc),
        ("temp_F", .number sf)]))
    (hk : env.parseFloat sk = some k) (ht : env.parseFloat sc = some t)
    (hf : env.parseFloat sf = some f) :
    TemperatureRespInfo.unmarshal env data =
      .ok { City := c, Kelvin := k, Celsius := t, Fahrenheit := f } := by
  simp [TemperatureRespInfo.unmarshal,
    jsonUnmarshalFields_reading env "TemperatureRespInfo" data c sk sc sf k t f hparse hk ht hf]

theorem WeatherInfo.marshal_weatherInfo_ok {F : Type} (env : Env F) (w : WeatherInfo F)
    (sk sc sf : String) (hk : env.jsonFloat w.Kelvin = .ok sk)
    (hc : env.jsonFloat w.Celsius = .ok sc) (hf : env.jsonFloat w.Fahrenheit = .ok sf) :
    WeatherInfo.marshal env w =
      .ok ("\x7b\"city\":" ++ env.jsonString w.City ++ ",\"temp_K\":" ++ sk ++
        ",\"temp_C\":" ++ sc ++ ",\"temp_F\":" ++ sf ++ "\x7d") := by
  simp [WeatherInfo.marshal, hk, hc, hf]

theorem TemperatureRespInfo.marshal_temperature_ok {F : Type} (env : Env F) (w : TemperatureRespInfo F)
    (sk sc sf : String) (hk : env.jsonFloat w.Kelvin = .ok sk)
    (hc : env.jsonFloat w.Celsius = .ok sc) (hf : env.jsonFloat w.Fahrenheit = .ok sf) :
    TemperatureRespInfo.marshal env w =
      .ok ("\x7b\"city\":" ++ env.jsonString w.City ++ ",\"temp_K\":" ++ sk ++
        ",\"temp_C\":" ++ sc ++ ",\"temp_F\":" ++ sf ++ "\x7d") := by
  simp [TemperatureRespInfo.marshal, hk, hc, hf]

theorem handler.WeatherHandler_ok {F : Type} [Add F] [NatCast F] (env : Env F)
    (h : handler.Handler) (r : Request)
    (geoResp : ClientResponse) (geoBody : String) (geoData : locationRespData)
    (wResp : ClientResponse) (wBody : String) (wData : weatherRespData F)
    (hgnew : env.newRequestError "GET" (handler.locationUrl r.cepParam) = none)
    (hgdo : env.clientDo (handler.locationRequest r.cepParam) = .ok geoResp)
    (hgbody : geoResp.Body = .ok geoBody)
    (hgun : env.unmarshalLocation geoBody = .ok geoData)
    (hgerr : geoData.Err = "")
    (hwnew : env.newRequestError "GET"
      (handler.weatherUrl env h.WeatherApiKey geoData.Localidade) = none)
    (hwdo : env.clientDo (handler.weatherRequest env h.WeatherApiKey geoData.Localidade) =
      .ok wResp)
    (hwbody : wResp.Body = .ok wBody)
    (hwun : env.unmarshalWeather wBody = .ok wData) :
    handler.WeatherHandler env h r =
      { response :=
          renderRender 200 r.accepted
            (WeatherInfo.marshal env
              { City := geoData.Localidade,
                Kelvin := wData.Current.TempC + ((273 : Nat) : F),
                Celsius := wData.Current.TempC, Fahrenheit := wData.Current.TempF })
            (env.xmlWeatherInfo
              { City := geoData.Localidade,
                Kelvin := wData.Current.TempC + ((273 : Nat) : F),
                Celsius := wData.Current.TempC, Fahrenheit := wData.Current.TempF }),
        calls := [handler.locationRequest r.cepParam,
          handler.weatherRequest env h.WeatherApiKey geoData.Localidade],
        logs := [] } := by
  have hg := handler.getLocationData_found env r.cepParam geoResp geoBody geoData hgnew hgdo
    hgbody hgun hgerr
  have hw := handler.getWeatherData_ok env geoData.Localidade h.WeatherApiKey wResp wBody wData
    hwnew hwdo hwbody hwun
  simp [handler.WeatherHandler, hg, hw]

theorem handler.InputHandler_ok {F : Type} [NatCast F] (env : Env F) (h : handler.Handler)
    (r : Request) (cep : String) (resp : ClientResponse) (body : String)
    (result : TemperatureRespInfo F)
    (hdec : env.decodeCep r.Body = (cep, none))
    (hvalid : handler.isValidCep cep = true)
    (hnew : env.newRequestError "GET" (h.WeatherServiceUrl ++ "/weather/" ++ cep) = none)
    (hdo : env.clientDo (handler.gatewayRequest env h r cep) = .ok resp)
    (hbody : resp.Body = .ok body) (hstatus : resp.StatusCode = 200)
    (hun : TemperatureRespInfo.unmarshal env body = .ok result) :
    handler.InputHandler env h r =
      { response := renderRender 200 r.accepted (TemperatureRespInfo.marshal env result)
          (env.xmlTemperature result),
        calls := [handler.gatewayRequest env h r cep], logs := [] } := by
  simp [handler.InputHandler, handler.decodeCepFromBodyRequest, hdec, hvalid,
    handler.requestWeatherData_ok env h r cep resp body hnew hdo hbody, hstatus, hun]

/-! ## The claims -/

/-- C1: `isValidCep s` is true exactly when `s` has 8 characters and every one
of them is an ASCII decimal digit between `0` and `9`; on every other string it
is false. This holds for the validator of `internal/handler` and for the one
of `cmd/service-a`. -/
theorem C1_isValidCep_exactly_eight_digits (s : String) :
    (handler.isValidCep s = true ↔ s.length = 8 ∧ ∀ c ∈ s.toList, '0' ≤ c ∧ c ≤ '9') ∧
    (handler.isValidCep s = false ↔ ¬ (s.length = 8 ∧ ∀ c ∈ s.toList, '0' ≤ c ∧ c ≤ '9')) ∧
    (serviceA.isValidCep s = true ↔ s.length = 8 ∧ ∀ c ∈ s.toList, '0' ≤ c ∧ c ≤ '9') ∧
    (serviceA.isValidCep s = false ↔ ¬ (s.length = 8 ∧ ∀ c ∈ s.toList, '0' ≤ c ∧ c ≤ '9')) := by
  have key : handler.isValidCep s = true ↔
      s.length = 8 ∧ ∀ c ∈ s.toList, '0' ≤ c ∧ c ≤ '9' := by
    rw [handler.isValidCep_iff]
    simp only [char_isDigit_iff]
  have keyF : handler.isValidCep s = false ↔
      ¬ (s.length = 8 ∧ ∀ c ∈ s.toList, '0' ≤ c ∧ c ≤ '9') := by
    rw [← key]
    simp
  exact ⟨key, keyF, by rw [serviceA.isValidCep_eq]; exact key,
    by rw [serviceA.isValidCep_eq]; exact keyF⟩

/-- C6: when the body of an inbound Gateway request decodes to a cep that is
not exactly 8 decimal digits, the Gateway responds 422 and hands no request to
the HTTP client. This holds for `InputHandler` and for the `weatherHandler` of
`cmd/service-a`. -/
theorem C6_invalid_cep_422_no_outbound_call {F : Type} [NatCast F] (env : Env F) (h : handler.Handler)
    (conf : serviceA.config) (r : Request) (cep : String)
    (hdec : env.decodeCep r.Body = (cep, none))
    (hbad : ¬ (cep.length = 8 ∧ ∀ c ∈ cep.toList, '0' ≤ c ∧ c ≤ '9')) :
    (handler.InputHandler env h r).response.statusCode = 422 ∧
    (handler.InputHandler env h r).calls = [] ∧
    (serviceA.weatherHandler env conf r).response.statusCode = 422 ∧
    (serviceA.weatherHandler env conf r).calls = [] := by
  have hf : handler.isValidCep cep = false := by
    rw [handler.isValidCep_eq_false_iff]
    simpa only [char_isDigit_iff] using hbad
  rw [handler.InputHandler_invalid env h r cep hdec hf,
    serviceA.weatherHandler_invalid env conf r cep hdec hf]
  exact ⟨rfl, rfl, rfl, rfl⟩

/-- Witness of C6: the body with cep `123` on the example network. -/
theorem C6_witness :
    gatewayEnv.decodeCep (gatewayInbound "\x7b\"cep\":\"123\"\x7d").Body = ("123", none) ∧
    ¬ (("123" : String).length = 8 ∧ ∀ c ∈ ("123" : String).toList, '0' ≤ c ∧ c ≤ '9') ∧
    (handler.InputHandler gatewayEnv demoHandler
      (gatewayInbound "\x7b\"cep\":\"123\"\x7d")).response.statusCode = 422 ∧
    (handler.InputHandler gatewayEnv demoHandler
      (gatewayInbound "\x7b\"cep\":\"123\"\x7d")).calls = [] ∧
    (serviceA.weatherHandler gatewayEnv demoConfA
      (gatewayInbound "\x7b\"cep\":\"123\"\x7d")).response.statusCode = 422 ∧
    (serviceA.weatherHandler gatewayEnv demoConfA
      (gatewayInbound "\x7b\"cep\":\"123\"\x7d")).calls = [] :=
  ⟨by decide, by decide,
    C6_invalid_cep_422_no_outbound_call gatewayEnv demoHandler demoConfA
      (gatewayInbound "\x7b\"cep\":\"123\"\x7d") "123" (by decide) (by decide)⟩

/-- C2, as amended: when the downstream call of an inbound Gateway request
completes with a status code other than 200 with which `net/http` sends a body
(a code from 201 to 999 other than 204 and 304), the Gateway responds with
exactly that status code and with the downstream body followed by one newline
character. This holds for `InputHandler` and for the `weatherHandler` of
`cmd/service-a`. -/
theorem C2_non200_status_and_body_plus_newline {F : Type} [NatCast F] (env : Env F)
    (h : handler.Handler) (conf : serviceA.config) (r : Request) (cep : String)
    (hdec : env.decodeCep r.Body = (cep, none))
    (hvalid : cep.length = 8 ∧ ∀ c ∈ cep.toList, '0' ≤ c ∧ c ≤ '9') :
    (∀ (resp : ClientResponse) (body : String),
      env.newRequestError "GET" (h.WeatherServiceUrl ++ "/weather/" ++ cep) = none →
      env.clientDo (handler.gatewayRequest env h r cep) = .ok resp →
      resp.Body = .ok body →
      200 < resp.StatusCode → resp.StatusCode ≤ 999 →
      resp.StatusCode ≠ 204 → resp.StatusCode ≠ 304 →
      (handler.InputHandler env h r).response =
        { statusCode := resp.StatusCode, body := body ++ "\n" }) ∧
    (∀ (resp : ClientResponse) (body : String),
      env.newRequestError "GET" (conf.serviceBUrl ++ "/weather/" ++ cep) = none →
      env.clientDo (serviceA.gatewayRequest conf r cep) = .ok resp →
      resp.Body = .ok body →
      200 < resp.StatusCode → resp.StatusCode ≤ 999 →
      resp.StatusCode ≠ 204 → resp.StatusCode ≠ 304 →
      (serviceA.weatherHandler env conf r).response =
        { statusCode := resp.StatusCode, body := body ++ "\n" }) := by
  have hv : handler.isValidCep cep = true := by
    rw [handler.isValidCep_iff]
    simpa only [char_isDigit_iff] using hvalid
  constructor
  · intro resp body hnew hdo hbody hlo hhi h204 h304
    rw [handler.InputHandler_proxy env h r cep resp body hdec hv hnew hdo hbody (by omega)]
    exact httpError_with_body body resp.StatusCode (by omega) hhi h204 h304
  · intro resp body hnew hdo hbody hlo hhi h204 h304
    rw [serviceA.weatherHandler_proxy env conf r cep resp body hdec hv hnew hdo hbody
      (by omega)]
    exact httpError_with_body body resp.StatusCode (by omega) hhi h204 h304

/-- Witness of C2 as amended: cep `99999999` on the example network, where the
Aggregator answers 404. -/
theorem C2_witness :
    gatewayEnv.decodeCep (gatewayInbound "\x7b\"cep\":\"99999999\"\x7d").Body = ("99999999", none) ∧
    (("99999999" : String).length = 8 ∧
      ∀ c ∈ ("99999999" : String).toList, '0' ≤ c ∧ c ≤ '9') ∧
    (handler.InputHandler gatewayEnv demoHandler (gatewayInbound "\x7b\"cep\":\"99999999\"\x7d")).response =
      { statusCode := 404, body := "can not find zipcode\n" ++ "\n" } ∧
    (serviceA.weatherHandler gatewayEnv demoConfA (gatewayInbound "\x7b\"cep\":\"99999999\"\x7d")).response =
      { statusCode := 404, body := "can not find zipcode\n" ++ "\n" } :=
  ⟨by decide, by decide,
    (C2_non200_status_and_body_plus_newline gatewayEnv demoHandler demoConfA (gatewayInbound "\x7b\"cep\":\"99999999\"\x7d") "99999999"
      (by decide) (by decide)).1
      { StatusCode := 404, Body := .ok "can not find zipcode\n" } "can not find zipcode\n"
      rfl rfl rfl (by decide) (by decide) (by decide) (by decide),
    (C2_non200_status_and_body_plus_newline gatewayEnv demoHandler demoConfA (gatewayInbound "\x7b\"cep\":\"99999999\"\x7d") "99999999"
      (by decide) (by decide)).2
      { StatusCode := 404, Body := .ok "can not find zipcode\n" } "can not find zipcode\n"
      rfl rfl rfl (by decide) (by decide) (by decide) (by decide)⟩

/-- Counterexample to C2 as stated: for cep `99999999` the Aggregator answers
404 with the body `can not find zipcode` and a newline; the Gateway answers 404
with that body and one more newline, so its body is not the downstream body
byte for byte. -/
theorem C2_counterexample_body_not_verbatim :
    (handler.WeatherHandler providerEnv demoHandler (aggregatorRequest 2 "99999999")).response =
      { statusCode := 404, body := "can not find zipcode\n" } ∧
    gatewayEnv.clientDo (handler.gatewayRequest gatewayEnv demoHandler (gatewayInbound "\x7b\"cep\":\"99999999\"\x7d") "99999999") =
      .ok { StatusCode := 404, Body := .ok "can not find zipcode\n" } ∧
    (handler.InputHandler gatewayEnv demoHandler (gatewayInbound "\x7b\"cep\":\"99999999\"\x7d")).calls =
      [handler.gatewayRequest gatewayEnv demoHandler (gatewayInbound "\x7b\"cep\":\"99999999\"\x7d") "99999999"] ∧
    (handler.InputHandler gatewayEnv demoHandler (gatewayInbound "\x7b\"cep\":\"99999999\"\x7d")).response =
      { statusCode := 404, body := "can not find zipcode\n\n" } ∧
    (handler.InputHandler gatewayEnv demoHandler (gatewayInbound "\x7b\"cep\":\"99999999\"\x7d")).response.body ≠
      "can not find zipcode\n" :=
  ⟨by decide, rfl, by decide, by decide, by decide⟩

/-- C9: for a valid cep, when the Gateway's outbound call fails (the request
cannot be created, the transport fails, or the body cannot be read), the
Gateway responds with status 500 and the fixed body
`error to request weather data` followed by a newline, whatever the error was:
the error text reaches the log only. -/
theorem C9_upstream_failure_generic_500 {F : Type} [NatCast F] (env : Env F) (h : handler.Handler)
    (r : Request) (cep : String)
    (hdec : env.decodeCep r.Body = (cep, none))
    (hvalid : cep.length = 8 ∧ ∀ c ∈ cep.toList, '0' ≤ c ∧ c ≤ '9')
    (hfail :
      (∃ e, env.newRequestError "GET" (h.WeatherServiceUrl ++ "/weather/" ++ cep) = some e) ∨
      (env.newRequestError "GET" (h.WeatherServiceUrl ++ "/weather/" ++ cep) = none ∧
        ∃ e, env.clientDo (handler.gatewayRequest env h r cep) = .error e) ∨
      (env.newRequestError "GET" (h.WeatherServiceUrl ++ "/weather/" ++ cep) = none ∧
        ∃ resp e, env.clientDo (handler.gatewayRequest env h r cep) = .ok resp ∧
          resp.Body = .error e)) :
    (handler.InputHandler env h r).response =
      { statusCode := 500, body := "error to request weather data\n" } := by
  have hv : handler.isValidCep cep = true := by
    rw [handler.isValidCep_iff]
    simpa only [char_isDigit_iff] using hvalid
  obtain ⟨err, calls, hreq⟩ := handler.requestWeatherData_error env h r cep hfail
  rw [handler.InputHandler_upstream_error env h r cep err calls hdec hv hreq]
  rfl

/-- Witness of C9: a valid cep on a network where every connection is
refused. -/
theorem C9_witness :
    (downEnv "dial tcp 10.0.0.7:8081: connect: connection refused").decodeCep
      (gatewayInbound "\x7b\"cep\":\"01001000\"\x7d").Body = ("01001000", none) ∧
    (("01001000" : String).length = 8 ∧
      ∀ c ∈ ("01001000" : String).toList, '0' ≤ c ∧ c ≤ '9') ∧
    (handler.InputHandler (downEnv "dial tcp 10.0.0.7:8081: connect: connection refused")
      demoHandler (gatewayInbound "\x7b\"cep\":\"01001000\"\x7d")).response =
      { statusCode := 500, body := "error to request weather data\n" } :=
  ⟨by decide, by decide,
    C9_upstream_failure_generic_500
      (downEnv "dial tcp 10.0.0.7:8081: connect: connection refused") demoHandler (gatewayInbound "\x7b\"cep\":\"01001000\"\x7d")
      "01001000" (by decide) (by decide) (Or.inr (Or.inl ⟨rfl, _, rfl⟩))⟩

/-- C4: for every postal code, when the Geo provider call succeeds and the
decoded response has a non-empty `erro` field, `getLocationData` returns no
location and no error, and `WeatherHandler` responds 404 having handed the
client the Geo request only: no request to the Weather provider is made. -/
theorem C4_geo_error_flag_gives_404_without_weather_call {F : Type} [Add F] [NatCast F]
    (env : Env F) (h : handler.Handler) (r : Request) (resp : ClientResponse)
    (body : String) (data : locationRespData)
    (hnew : env.newRequestError "GET" (handler.locationUrl r.cepParam) = none)
    (hdo : env.clientDo (handler.locationRequest r.cepParam) = .ok resp)
    (hbody : resp.Body = .ok body)
    (hun : env.unmarshalLocation body = .ok data)
    (herr : data.Err ≠ "") :
    (handler.getLocationData env r.cepParam).1 = .ok none ∧
    (handler.WeatherHandler env h r).response.statusCode = 404 ∧
    (handler.WeatherHandler env h r).calls = [handler.locationRequest r.cepParam] ∧
    ∀ call ∈ (handler.WeatherHandler env h r).calls, ∀ key location : String,
      call.URL ≠ handler.weatherUrl env key location := by
  have hg := handler.getLocationData_flagged env r.cepParam resp body data hnew hdo hbody hun
    herr
  have hw : handler.WeatherHandler env h r =
      { response := httpError "can not find zipcode" 404,
        calls := [handler.locationRequest r.cepParam], logs := ["cep not found"] } := by
    simp [handler.WeatherHandler, hg]
  refine ⟨by rw [hg], by rw [hw]; rfl, by rw [hw], ?_⟩
  rw [hw]
  intro call hcall key location
  simp only [List.mem_singleton] at hcall
  subst hcall
  exact handler.locationUrl_ne_weatherUrl env r.cepParam key location

/-- Witness of C4: cep `99999999`, which the example Geo provider flags. -/
theorem C4_witness :
    providerEnv.clientDo (handler.locationRequest (aggregatorRequest 2 "99999999").cepParam) =
      .ok { StatusCode := 200, Body := .ok "viacep erro" } ∧
    (∃ data, providerEnv.unmarshalLocation "viacep erro" = .ok data ∧ data.Err = "true") ∧
    ("true" : String) ≠ "" ∧
    (handler.getLocationData providerEnv (aggregatorRequest 2 "99999999").cepParam).1 =
      .ok none ∧
    (handler.WeatherHandler providerEnv demoHandler
      (aggregatorRequest 2 "99999999")).response.statusCode = 404 ∧
    (handler.WeatherHandler providerEnv demoHandler (aggregatorRequest 2 "99999999")).calls =
      [handler.locationRequest (aggregatorRequest 2 "99999999").cepParam] ∧
    ∀ call ∈ (handler.WeatherHandler providerEnv demoHandler
        (aggregatorRequest 2 "99999999")).calls, ∀ key location : String,
      call.URL ≠ handler.weatherUrl providerEnv key location :=
  ⟨rfl, ⟨_, rfl, rfl⟩, by decide,
    C4_geo_error_flag_gives_404_without_weather_call providerEnv demoHandler
      (aggregatorRequest 2 "99999999")
      { StatusCode := 200, Body := .ok "viacep erro" } "viacep erro"
      { Cep := "", Logradouro := "", Complemento := "", Unidade := "", Bairro := "",
        Localidade := "", Uf := "", Ibge := "", Gia := "", Ddd := "", Siafi := "",
        Err := "true" }
      rfl rfl rfl rfl (by decide)⟩

/-- C5: for every postal code, when the Geo provider request fails (the request
cannot be created, the transport fails, the body cannot be read, or the JSON
cannot be decoded), `getLocationData` returns an error, which is not the
no-location result, and `WeatherHandler` responds 500 without making any
request to the Weather provider. -/
theorem C5_geo_failure_gives_500_without_weather_call {F : Type} [Add F] [NatCast F]
    (env : Env F) (h : handler.Handler) (r : Request)
    (hfail :
      (∃ e, env.newRequestError "GET" (handler.locationUrl r.cepParam) = some e) ∨
      (env.newRequestError "GET" (handler.locationUrl r.cepParam) = none ∧
        ∃ e, env.clientDo (handler.locationRequest r.cepParam) = .error e) ∨
      (env.newRequestError "GET" (handler.locationUrl r.cepParam) = none ∧
        ∃ resp e, env.clientDo (handler.locationRequest r.cepParam) = .ok resp ∧
          resp.Body = .error e) ∨
      (env.newRequestError "GET" (handler.locationUrl r.cepParam) = none ∧
        ∃ resp body e, env.clientDo (handler.locationRequest r.cepParam) = .ok resp ∧
          resp.Body = .ok body ∧ env.unmarshalLocation body = .error e)) :
    (∃ err, (handler.getLocationData env r.cepParam).1 = .error err) ∧
    (handler.getLocationData env r.cepParam).1 ≠ .ok none ∧
    (handler.WeatherHandler env h r).response.statusCode = 500 ∧
    ((handler.WeatherHandler env h r).calls = [] ∨
      (handler.WeatherHandler env h r).calls = [handler.locationRequest r.cepParam]) ∧
    ∀ call ∈ (handler.WeatherHandler env h r).calls, ∀ key location : String,
      call.URL ≠ handler.weatherUrl env key location := by
  obtain ⟨err, calls, hg, hcalls⟩ := handler.getLocationData_error env r.cepParam hfail
  have hw : handler.WeatherHandler env h r =
      { response := httpError "error to get location data in viacep api" 500,
        calls := calls, logs := ["getLocationData: " ++ err] } := by
    simp [handler.WeatherHandler, hg]
  refine ⟨⟨err, by rw [hg]⟩, by rw [hg]; simp, by rw [hw]; rfl, by rw [hw]; exact hcalls, ?_⟩
  rw [hw]
  intro call hcall key location
  rcases hcalls with hc | hc
  · rw [hc] at hcall
    simp at hcall
  · rw [hc] at hcall
    simp only [List.mem_singleton] at hcall
    subst hcall
    exact handler.locationUrl_ne_weatherUrl env r.cepParam key location

/-- Witness of C5: a network on which the Geo provider's host cannot be
resolved. -/
theorem C5_witness :
    (downEnv "dial tcp: lookup viacep.com.br: no such host").clientDo
        (handler.locationRequest (aggregatorRequest 2 "01001000").cepParam) =
      .error "dial tcp: lookup viacep.com.br: no such host" ∧
    (∃ err, (handler.getLocationData (downEnv "dial tcp: lookup viacep.com.br: no such host")
      (aggregatorRequest 2 "01001000").cepParam).1 = .error err) ∧
    (handler.getLocationData (downEnv "dial tcp: lookup viacep.com.br: no such host")
      (aggregatorRequest 2 "01001000").cepParam).1 ≠ .ok none ∧
    (handler.WeatherHandler (downEnv "dial tcp: lookup viacep.com.br: no such host") demoHandler
      (aggregatorRequest 2 "01001000")).response.statusCode = 500 ∧
    ((handler.WeatherHandler (downEnv "dial tcp: lookup viacep.com.br: no such host")
        demoHandler (aggregatorRequest 2 "01001000")).calls = [] ∨
      (handler.WeatherHandler (downEnv "dial tcp: lookup viacep.com.br: no such host")
        demoHandler (aggregatorRequest 2 "01001000")).calls =
        [handler.locationRequest (aggregatorRequest 2 "01001000").cepParam]) ∧
    ∀ call ∈ (handler.WeatherHandler (downEnv "dial tcp: lookup viacep.com.br: no such host")
        demoHandler (aggregatorRequest 2 "01001000")).calls, ∀ key location : String,
      call.URL ≠
        handler.weatherUrl (downEnv "dial tcp: lookup viacep.com.br: no such host") key
          location :=
  ⟨rfl,
    C5_geo_failure_gives_500_without_weather_call
      (downEnv "dial tcp: lookup viacep.com.br: no such host") demoHandler
      (aggregatorRequest 2 "01001000") (Or.inr (Or.inl ⟨rfl, _, rfl⟩))⟩

/-- C7: for every city name, when the Weather provider response decodes
successfully with `current.temp_c = c` (negative values included),
`getWeatherData` returns a reading whose Kelvin is its Celsius plus 273 and
whose Celsius is `c`. This holds for `internal/handler` and for
`cmd/service-b`, for any addition on the number type. -/
theorem C7_kelvin_is_celsius_plus_273 {F : Type} [Add F] [NatCast F] (env : Env F)
    (conf : serviceB.config) (location : String) (resp : ClientResponse) (body : String)
    (data : weatherRespData F) (c : F)
    (hnew : env.newRequestError "GET"
      (handler.weatherUrl env conf.weatherApiKey location) = none)
    (hdo : env.clientDo (handler.weatherRequest env conf.weatherApiKey location) = .ok resp)
    (hbody : resp.Body = .ok body)
    (hun : env.unmarshalWeather body = .ok data)
    (hc : data.Current.TempC = c) :
    (∃ w, (handler.getWeatherData env location conf.weatherApiKey).1 = .ok w ∧
      w.Kelvin = w.Celsius + ((273 : Nat) : F) ∧ w.Celsius = c) ∧
    (∃ w, (serviceB.getWeatherData env conf location).1 = .ok w ∧
      w.Kelvin = w.Celsius + ((273 : Nat) : F) ∧ w.Celsius = c) := by
  have hg := handler.getWeatherData_ok env location conf.weatherApiKey resp body data hnew hdo
    hbody hun
  have hb := hg
  rw [← serviceB.getWeatherData_eq env conf location] at hb
  exact ⟨⟨_, congrArg Prod.fst hg, rfl, hc⟩, ⟨_, congrArg Prod.fst hb, rfl, hc⟩⟩

/-- Witness of C7: Urupema at -5 degrees Celsius, which gives 268 Kelvin. -/
theorem C7_witness :
    providerEnv.unmarshalWeather "weatherapi -5 23" =
      .ok { Current := { TempC := -5, TempF := 23 } } ∧
    (∃ w, (handler.getWeatherData providerEnv "Urupema" demoConfB.weatherApiKey).1 = .ok w ∧
      w.Kelvin = w.Celsius + ((273 : Nat) : Int) ∧ w.Celsius = -5) ∧
    (∃ w, (serviceB.getWeatherData providerEnv demoConfB "Urupema").1 = .ok w ∧
      w.Kelvin = w.Celsius + ((273 : Nat) : Int) ∧ w.Celsius = -5) :=
  ⟨rfl,
    C7_kelvin_is_celsius_plus_273 providerEnv demoConfB "Urupema"
      { StatusCode := 200, Body := .ok "weatherapi -5 23" } "weatherapi -5 23"
      { Current := { TempC := -5, TempF := 23 } } (-5) rfl rfl rfl rfl rfl⟩

/-- C10: for every city name, when the Weather provider response decodes
successfully with `current.temp_c = c` and `current.temp_f = f`, the reading
`getWeatherData` returns has Fahrenheit equal to `f`, whatever `c` is: the
value is the provider's, not one computed from Celsius. This holds for
`internal/handler` and for `cmd/service-b`. -/
theorem C10_fahrenheit_is_provider_value {F : Type} [Add F] [NatCast F] (env : Env F)
    (conf : serviceB.config) (location : String) (resp : ClientResponse) (body : String)
    (data : weatherRespData F) (c f : F)
    (hnew : env.newRequestError "GET"
      (handler.weatherUrl env conf.weatherApiKey location) = none)
    (hdo : env.clientDo (handler.weatherRequest env conf.weatherApiKey location) = .ok resp)
    (hbody : resp.Body = .ok body)
    (hun : env.unmarshalWeather body = .ok data)
    (hc : data.Current.TempC = c) (hf : data.Current.TempF = f) :
    (∃ w, (handler.getWeatherData env location conf.weatherApiKey).1 = .ok w ∧
      w.Fahrenheit = f ∧ w.Celsius = c) ∧
    (∃ w, (serviceB.getWeatherData env conf location).1 = .ok w ∧
      w.Fahrenheit = f ∧ w.Celsius = c) := by
  have hg := handler.getWeatherData_ok env location conf.weatherApiKey resp body data hnew hdo
    hbody hun
  have hb := hg
  rw [← serviceB.getWeatherData_eq env conf location] at hb
  exact ⟨⟨_, congrArg Prod.fst hg, hf, hc⟩, ⟨_, congrArg Prod.fst hb, hf, hc⟩⟩

/-- Witness of C10: Lages, for which the example provider reports 10 degrees
Celsius and 99 degrees Fahrenheit, a pair that no conversion relates. -/
theorem C10_witness :
    providerEnv.unmarshalWeather "weatherapi 10 99" =
      .ok { Current := { TempC := 10, TempF := 99 } } ∧
    ((10 : Int) * 9 / 5 + 32 ≠ 99) ∧
    (∃ w, (handler.getWeatherData providerEnv "Lages" demoConfB.weatherApiKey).1 = .ok w ∧
      w.Fahrenheit = 99 ∧ w.Celsius = 10) ∧
    (∃ w, (serviceB.getWeatherData providerEnv demoConfB "Lages").1 = .ok w ∧
      w.Fahrenheit = 99 ∧ w.Celsius = 10) :=
  ⟨rfl, by decide,
    C10_fahrenheit_is_provider_value providerEnv demoConfB "Lages"
      { StatusCode := 200, Body := .ok "weatherapi 10 99" } "weatherapi 10 99"
      { Current := { TempC := 10, TempF := 99 } } 10 99 rfl rfl rfl rfl rfl rfl⟩

/-- C3, as the code behaves: whatever the network answers, every outbound
request `WeatherHandler` makes carries the background context. Evaluated for
the Aggregator request for cep `01001000` on the example network: both outbound
requests (to the Geo and to the Weather provider) carry the background context,
which is not derived from the context of the inbound request, so cancelling the
inbound request does not cancel them; the Gateway's outbound request does carry
a context derived from its inbound request. -/
theorem C3_aggregator_calls_use_background_context {F : Type} [Add F] [NatCast F]
    (env : Env F) (h : handler.Handler) (r : Request) :
    (handler.WeatherHandler env h r).calls.all
      (fun call => decide (call.ctx = Context.background)) = true ∧
    (handler.WeatherHandler providerEnv demoHandler (aggregatorRequest 2 "01001000")).calls =
      [handler.locationRequest "01001000",
       handler.weatherRequest providerEnv "k" "São Paulo"] ∧
    (handler.WeatherHandler providerEnv demoHandler
      (aggregatorRequest 2 "01001000")).calls.map (fun call => call.ctx) =
      [Context.background, Context.background] ∧
    (handler.WeatherHandler providerEnv demoHandler
      (aggregatorRequest 2 "01001000")).calls.map
        (fun call => call.ctx.derivedFrom (aggregatorRequest 2 "01001000").ctx) =
      [false, false] ∧
    (handler.InputHandler gatewayEnv demoHandler (gatewayInbound "\x7b\"cep\":\"01001000\"\x7d")).calls.map
        (fun call => call.ctx.derivedFrom (gatewayInbound "\x7b\"cep\":\"01001000\"\x7d").ctx) = [true] := by
  refine ⟨?_, by decide, by decide, by decide, by decide⟩
  rw [List.all_eq_true]
  intro call hcall
  exact decide_eq_true (handler.WeatherHandler_calls_background env h r call hcall)

/-- C8, as amended: for a valid 8-digit cep, when the Geo provider answers with
an empty `erro` and `localidade = c`, the Weather provider answers with
`temp_c = t` and `temp_f = f`, and neither inbound request asks for XML, the
Aggregator responds 200 with the JSON object of the members `city`, `temp_K`,
`temp_C` and `temp_F`, in this order, holding `c`, `t + 273`, `t` and `f`, and
a newline; and the Gateway whose downstream call returns that response responds
200 with the same bytes. The library is taken to encode the three numbers, to
scan the Aggregator's text into its four members and to read the three number
literals back. For cep `01001000`, São Paulo, 25 and 77, with the numbers
written `298`, `25` and `77`, the Gateway's body is the text
`{"city":"São Paulo","temp_K":298,"temp_C":25,"temp_F":77}` and a newline. -/
theorem C8_end_to_end_json_reading {F : Type} [Add F] [NatCast F]
    (envA envB : Env F) (hA hB : handler.Handler) (rA rB : Request)
    (cep c : String) (t f : F)
    (geoResp : ClientResponse) (geoBody : String) (geoData : locationRespData)
    (wResp : ClientResponse) (wBody : String) (wData : weatherRespData F)
    (gwResp : ClientResponse) (sk st sf : String)
    (hdec : envA.decodeCep rA.Body = (cep, none))
    (hvalid : cep.length = 8 ∧ ∀ x ∈ cep.toList, '0' ≤ x ∧ x ≤ '9')
    (hparam : rB.cepParam = cep)
    (hgnew : envB.newRequestError "GET" (handler.locationUrl cep) = none)
    (hgdo : envB.clientDo (handler.locationRequest cep) = .ok geoResp)
    (hgbody : geoResp.Body = .ok geoBody)
    (hgun : envB.unmarshalLocation geoBody = .ok geoData)
    (hgerr : geoData.Err = "")
    (hcity : geoData.Localidade = c)
    (hwnew : envB.newRequestError "GET" (handler.weatherUrl envB hB.WeatherApiKey c) = none)
    (hwdo : envB.clientDo (handler.weatherRequest envB hB.WeatherApiKey c) = .ok wResp)
    (hwbody : wResp.Body = .ok wBody)
    (hwun : envB.unmarshalWeather wBody = .ok wData)
    (htc : wData.Current.TempC = t)
    (htf : wData.Current.TempF = f)
    (haccB : rB.accepted ≠ ContentType.XML)
    (haccA : rA.accepted ≠ ContentType.XML)
    (hlibS : envA.jsonString = envB.jsonString)
    (hlibF : envA.jsonFloat = envB.jsonFloat)
    (hfk : envB.jsonFloat (t + ((273 : Nat) : F)) = .ok sk)
    (hft : envB.jsonFloat t = .ok st)
    (hff : envB.jsonFloat f = .ok sf)
    (hnew : envA.newRequestError "GET" (hA.WeatherServiceUrl ++ "/weather/" ++ cep) = none)
    (hdo : envA.clientDo (handler.gatewayRequest envA hA rA cep) = .ok gwResp)
    (hstatus : gwResp.StatusCode = (handler.WeatherHandler envB hB rB).response.statusCode)
    (hbody : gwResp.Body = .ok (handler.WeatherHandler envB hB rB).response.body)
    (hparse : envA.jsonParse
        ("\x7b\"city\":" ++ envB.jsonString c ++ ",\"temp_K\":" ++ sk ++ ",\"temp_C\":" ++ st ++
          ",\"temp_F\":" ++ sf ++ "\x7d" ++ "\n") =
      .ok (.object [("city", .string c), ("temp_K", .number sk), ("temp_C", .number st),
        ("temp_F", .number sf)]))
    (hpk : envA.parseFloat sk = some (t + ((273 : Nat) : F)))
    (hpt : envA.parseFloat st = some t)
    (hpf : envA.parseFloat sf = some f) :
    (handler.WeatherHandler envB hB rB).response =
      { statusCode := 200,
        body :=
          ("\x7b\"city\":" ++ envB.jsonString c ++ ",\"temp_K\":" ++ sk ++ ",\"temp_C\":" ++ st ++
          ",\"temp_F\":" ++ sf ++ "\x7d" ++ "\n") } ∧
    (handler.InputHandler envA hA rA).response =
      { statusCode := 200,
        body :=
          ("\x7b\"city\":" ++ envB.jsonString c ++ ",\"temp_K\":" ++ sk ++ ",\"temp_C\":" ++ st ++
          ",\"temp_F\":" ++ sf ++ "\x7d" ++ "\n") } ∧
    (cep = "01001000" → c = "São Paulo" → t = ((25 : Nat) : F) → f = ((77 : Nat) : F) →
      envB.jsonString "São Paulo" = "\"São Paulo\"" → sk = "298" → st = "25" → sf = "77" →
      (handler.InputHandler envA hA rA).response =
        { statusCode := 200,
          body := "\x7b\"city\":\"São Paulo\",\"temp_K\":298,\"temp_C\":25,\"temp_F\":77\x7d" ++ "\n" }) := by
  subst hparam hcity htc htf
  have hv : handler.isValidCep rB.cepParam = true := by
    rw [handler.isValidCep_iff]
    simpa only [char_isDigit_iff] using hvalid
  have hagg := handler.WeatherHandler_ok envB hB rB geoResp geoBody geoData wResp wBody wData
    hgnew hgdo hgbody hgun hgerr hwnew hwdo hwbody hwun
  have hmB := WeatherInfo.marshal_weatherInfo_ok envB
    { City := geoData.Localidade, Kelvin := wData.Current.TempC + ((273 : Nat) : F),
      Celsius := wData.Current.TempC, Fahrenheit := wData.Current.TempF } sk st sf hfk hft hff
  have hrB := renderRender_json rB.accepted _
    (envB.xmlWeatherInfo
      { City := geoData.Localidade, Kelvin := wData.Current.TempC + ((273 : Nat) : F),
        Celsius := wData.Current.TempC, Fahrenheit := wData.Current.TempF }) _ haccB hmB
  have haggR : (handler.WeatherHandler envB hB rB).response =
      { statusCode := 200,
        body := "\x7b\"city\":" ++ envB.jsonString geoData.Localidade ++ ",\"temp_K\":" ++ sk ++
          ",\"temp_C\":" ++ st ++ ",\"temp_F\":" ++ sf ++ "\x7d" ++ "\n" } := by
    rw [hagg]
    exact hrB
  rw [haggR] at hstatus hbody
  have hun := TemperatureRespInfo.unmarshal_reading envA _ geoData.Localidade sk st sf
    (wData.Current.TempC + ((273 : Nat) : F)) wData.Current.TempC wData.Current.TempF
    hparse hpk hpt hpf
  have hgw := handler.InputHandler_ok envA hA rA rB.cepParam gwResp _ _ hdec hv hnew hdo hbody
    hstatus hun
  have hmA := TemperatureRespInfo.marshal_temperature_ok envA
    { City := geoData.Localidade, Kelvin := wData.Current.TempC + ((273 : Nat) : F),
      Celsius := wData.Current.TempC, Fahrenheit := wData.Current.TempF } sk st sf
    (by rw [hlibF]; exact hfk) (by rw [hlibF]; exact hft) (by rw [hlibF]; exact hff)
  rw [hlibS] at hmA
  have hrA := renderRender_json rA.accepted _
    (envA.xmlTemperature
      { City := geoData.Localidade, Kelvin := wData.Current.TempC + ((273 : Nat) : F),
        Celsius := wData.Current.TempC, Fahrenheit := wData.Current.TempF }) _ haccA hmA
  have hgwR : (handler.InputHandler envA hA rA).response =
      { statusCode := 200,
        body := "\x7b\"city\":" ++ envB.jsonString geoData.Localidade ++ ",\"temp_K\":" ++ sk ++
          ",\"temp_C\":" ++ st ++ ",\"temp_F\":" ++ sf ++ "\x7d" ++ "\n" } := by
    rw [hgw]
    exact hrA
  refine ⟨haggR, hgwR, ?_⟩
  intro _ hc _ _ hq hsk hst hsf
  rw [hgwR, hc, hq, hsk, hst, hsf]
  rfl

/-- Witness of C8 as amended: cep `01001000` end to end on the example network,
where the Gateway's downstream call is answered by the Aggregator itself and
no request carries an `Accept` header. -/
theorem C8_witness :
    (handler.WeatherHandler providerEnv demoHandler (aggregatorRequest 2 "01001000")).response =
      { statusCode := 200,
        body := "\x7b\"city\":\"São Paulo\",\"temp_K\":298,\"temp_C\":25,\"temp_F\":77\x7d" ++ "\n" } ∧
    (handler.InputHandler gatewayEnv demoHandler (gatewayInbound "\x7b\"cep\":\"01001000\"\x7d")).response =
      { statusCode := 200,
        body := "\x7b\"city\":\"São Paulo\",\"temp_K\":298,\"temp_C\":25,\"temp_F\":77\x7d" ++ "\n" } :=
  have key := C8_end_to_end_json_reading gatewayEnv providerEnv demoHandler demoHandler (gatewayInbound "\x7b\"cep\":\"01001000\"\x7d")
    (aggregatorRequest 2 "01001000") "01001000" "São Paulo" (25 : Int) (77 : Int)
    { StatusCode := 200, Body := .ok "viacep 01001000" } "viacep 01001000"
    { Cep := "01001-000", Logradouro := "Praça da Sé", Complemento := "lado ímpar",
      Unidade := "", Bairro := "Sé", Localidade := "São Paulo", Uf := "SP",
      Ibge := "3550308", Gia := "1004", Ddd := "11", Siafi := "7107", Err := "" }
    { StatusCode := 200, Body := .ok "weatherapi 25 77" } "weatherapi 25 77"
    { Current := { TempC := 25, TempF := 77 } }
    { StatusCode := 200, Body := .ok demoReadingJson } "298" "25" "77"
    (by decide) (by decide) rfl rfl rfl rfl rfl rfl rfl rfl rfl rfl rfl rfl rfl
    (by decide) (by decide) rfl rfl rfl rfl rfl rfl rfl (by decide) rfl rfl rfl rfl rfl
  ⟨key.1, key.2.2 rfl rfl rfl rfl rfl rfl rfl rfl⟩

/-- Counterexample to C8 as stated: cep `01001000` with the providers answering
as the claim says, sent to the Gateway with `Accept: application/xml`. The
Aggregator responds 200 with the JSON reading, and the Gateway responds 200
with the reading as an XML document, which is not the JSON text of the
claim. -/
theorem C8_counterexample_xml_accept :
    (∃ d, providerEnv.unmarshalLocation "viacep 01001000" = .ok d ∧ d.Err = "" ∧
      d.Localidade = "São Paulo") ∧
    (∃ d, providerEnv.unmarshalWeather "weatherapi 25 77" = .ok d ∧ d.Current.TempC = 25 ∧
      d.Current.TempF = 77) ∧
    (handler.WeatherHandler providerEnv demoHandler (aggregatorRequest 2 "01001000")).response =
      { statusCode := 200,
        body := "\x7b\"city\":\"São Paulo\",\"temp_K\":298,\"temp_C\":25,\"temp_F\":77\x7d" ++ "\n" } ∧
    gatewayEnv.clientDo (handler.gatewayRequest gatewayEnv demoHandler (gatewayInboundXML "\x7b\"cep\":\"01001000\"\x7d") "01001000") =
      .ok { StatusCode := 200,
            Body := .ok ("\x7b\"city\":\"São Paulo\",\"temp_K\":298,\"temp_C\":25,\"temp_F\":77\x7d" ++ "\n") } ∧
    (handler.InputHandler gatewayEnv demoHandler (gatewayInboundXML "\x7b\"cep\":\"01001000\"\x7d")).response =
      { statusCode := 200,
        body := "<?xml version=\"1.0\" encoding=\"UTF-8\"?>\n<TemperatureRespInfo>" ++
          "<City>São Paulo</City><Kelvin>298</Kelvin><Celsius>25</Celsius>" ++
          "<Fahrenheit>77</Fahrenheit></TemperatureRespInfo>" } ∧
    (handler.InputHandler gatewayEnv demoHandler (gatewayInboundXML "\x7b\"cep\":\"01001000\"\x7d")).response.body ≠
      "\x7b\"city\":\"São Paulo\",\"temp_K\":298,\"temp_C\":25,\"temp_F\":77\x7d" ∧
    (handler.InputHandler gatewayEnv demoHandler (gatewayInboundXML "\x7b\"cep\":\"01001000\"\x7d")).response.body ≠
      "\x7b\"city\":\"São Paulo\",\"temp_K\":298,\"temp_C\":25,\"temp_F\":77\x7d" ++ "\n" :=
  ⟨⟨_, rfl, rfl, rfl⟩, ⟨_, rfl, rfl, rfl⟩, by decide, rfl, by decide, by decide, by decide⟩
